import Mathlib

/-!
Verification development for `tf2onnx.rewriter.custom_rnn_rewriter`.

The rewriter pass itself (pattern classifier, shape adapter, scan synthesizer,
output reconnector) is translated from `src/tf2onnx/rewriter/custom_rnn_rewriter.py`.
The generic graph object and the loop-extraction framework the pass calls into
(`tf2onnx` Graph, `LoopRewriterBase`, `LoopProperties`) are external collaborators;
they are modelled from the spec (sections 3 and 6), as marked on each definition.

Stateful graph mutation is embedded as explicit state passing: a computation is a
function `Graph → Except String α × Graph`, where `Except.error` stands for a raised
Python exception and the returned `Graph` is the (possibly mutated) graph at the
point of return or fault.
-/

set_option autoImplicit false

namespace CustomRnn

/-- Modelled from the spec: an attribute value attached to a graph node
(integer list, integer, or string). -/
inductive AttrValue where
  | ints : List Int → AttrValue
  | int : Int → AttrValue
  | str : String → AttrValue
deriving DecidableEq

/-- Modelled from the spec: one node of the computation graph, with a unique name,
an operator type, input tensor ids, output tensor ids and attributes. -/
structure Node where
  name : String
  op_type : String
  inputs : List String
  output : List String
  attrs : List (String × AttrValue)
deriving DecidableEq

/-- Modelled from the spec (section 3): a tensor endpoint record with an id,
an inferred shape (`none` when unknown; a `-1` entry is an unresolved dimension)
and a dtype code. -/
structure TensorValueInfo where
  id : String
  shape : Option (List Int)
  dtype : Nat
deriving DecidableEq

/-- Modelled from the spec (section 3): the body subgraph attached to the scan node,
with interior nodes, designated outputs, and declared graph inputs
(id, dtype, shape) in declaration order. -/
structure SubGraph where
  nodes : List Node
  outputs : List String
  graph_inputs : List (String × Nat × Option (List Int))
deriving DecidableEq

/-- Modelled from the spec: `add_graph_input` appends one declared input. -/
def SubGraph.add_graph_input (bg : SubGraph) (id : String) (dtype : Nat)
    (shape : Option (List Int)) : SubGraph :=
  { bg with graph_inputs := bg.graph_inputs ++ [(id, dtype, shape)] }

/-- Modelled from the spec: `LoopRewriterBase.construct_graph_from_nodes` packages
the extracted cell nodes and outputs as a self-contained subgraph, initially with
no declared inputs. -/
def construct_graph_from_nodes (nodes : List Node) (outputs : List String) : SubGraph :=
  ⟨nodes, outputs, []⟩

/-- Modelled from the spec (section 6): the shared mutable graph.  `shapes` and
`dtypes` record inferred output shapes/dtypes (newest first; a missing entry means
the shape/dtype is unknown, i.e. Python `None`).  `bodies` records subgraphs
attached as a node's `body` attribute, keyed by node name.  `counter` feeds the
unique-name generator.  `failing_ops` models the spec's "internal graph-building
error" fault source (section 4.3): constructing a node whose op type is listed
there raises. -/
structure Graph where
  nodes : List Node
  shapes : List (String × List Int)
  dtypes : List (String × Nat)
  bodies : List (String × SubGraph)
  counter : Nat
  failing_ops : List String
deriving DecidableEq

/-- Modelled from the spec: shape introspection (`None` when unknown). -/
def Graph.get_shape (g : Graph) (id : String) : Option (List Int) :=
  g.shapes.lookup id

/-- Modelled from the spec: dtype introspection (`None` when unknown). -/
def Graph.get_dtype (g : Graph) (id : String) : Option Nat :=
  g.dtypes.lookup id

/-- Modelled from the spec: node lookup by output tensor id. -/
def Graph.get_node_by_output (g : Graph) (id : String) : Option Node :=
  g.nodes.find? (fun n => n.output.contains id)

/-- Modelled from the spec: in-place node removal by node name. -/
def Graph.remove_node (g : Graph) (name : String) : Graph :=
  { g with nodes := g.nodes.filter (fun n => n.name != name) }

/-- Modelled from the spec: bulk consumer rewiring; every input reference to
tensor `old` in every node becomes a reference to tensor `new`. -/
def Graph.replace_all_inputs (g : Graph) (old new : String) : Graph :=
  { g with nodes := g.nodes.map (fun n =>
      { n with inputs := n.inputs.map (fun i => if i = old then new else i) }) }

/-- Modelled from the spec: attach a body subgraph to the node named `name`. -/
def Graph.set_body (g : Graph) (name : String) (bg : SubGraph) : Graph :=
  { g with bodies := (name, bg) :: g.bodies }

/-- Body-subgraph lookup by node name. -/
def Graph.get_body (g : Graph) (name : String) : Option SubGraph :=
  g.bodies.lookup name

/-- String attribute lookup on a node (`get_attr(...).s`). -/
def Node.get_attr_s (n : Node) (key : String) : Option String :=
  match n.attrs.lookup key with
  | some (AttrValue.str s) => some s
  | _ => none

/-- A stateful graph computation: explicit state passing with Python exceptions
embedded as `Except.error`; the graph mutated so far is kept on a fault. -/
def M (α : Type) : Type := Graph → Except String α × Graph

/-- Return a pure value. -/
def M.pure {α : Type} (a : α) : M α := fun g => (Except.ok a, g)

/-- Sequence two computations; a fault short-circuits but keeps the state. -/
def M.bind {α β : Type} (x : M α) (f : α → M β) : M β := fun g =>
  match x g with
  | (Except.ok a, g2) => f a g2
  | (Except.error e, g2) => (Except.error e, g2)

/-- Raise an exception. -/
def M.throw {α : Type} (e : String) : M α := fun g => (Except.error e, g)

/-- Read from the graph. -/
def M.get {α : Type} (f : Graph → α) : M α := fun g => (Except.ok (f g), g)

/-- Mutate the graph. -/
def M.modify (f : Graph → Graph) : M Unit := fun g => (Except.ok (), f g)

/-- Name generated by the unique-name maker at counter value `k`. -/
def gen_name (base : String) (k : Nat) : String := base ++ "__" ++ toString k

/-- Output tensor id `i` of the node generated at counter value `k`. -/
def gen_out (base : String) (k : Nat) (i : Nat) : String :=
  gen_name base k ++ ":" ++ toString i

/-- The node record built by `make_node` at counter value `k`. -/
def mk_node (base op : String) (k : Nat) (inputs : List String)
    (attrs : List (String × AttrValue)) (nouts : Nat) : Node :=
  { name := gen_name base k, op_type := op, inputs := inputs,
    output := (List.range nouts).map (fun i => gen_out base k i), attrs := attrs }

/-- Pair generated outputs with declared shapes, keeping the known ones. -/
def record_shapes : List String → List (Option (List Int)) → List (String × List Int)
  | o :: os, some s :: ss => (o, s) :: record_shapes os ss
  | _ :: os, none :: ss => record_shapes os ss
  | _, _ => []

/-- Pair generated outputs with declared dtypes, keeping the known ones. -/
def record_dtypes : List String → List (Option Nat) → List (String × Nat)
  | o :: os, some d :: ss => (o, d) :: record_dtypes os ss
  | _ :: os, none :: ss => record_dtypes os ss
  | _, _ => []

/-- Modelled from the spec (section 6): node creation with a uniquely generated
name, declared output count, and optional declared output shapes/dtypes.
Construction of an op listed in `failing_ops` raises an internal
graph-building error (section 4.3). -/
def make_node (op : String) (inputs : List String) (attrs : List (String × AttrValue))
    (output_count : Nat) (shapes : List (Option (List Int))) (dtypes : List (Option Nat))
    (op_name_scope : Option String) : M Node := fun g =>
  if op ∈ g.failing_ops then (Except.error ("make_node failed for op " ++ op), g)
  else
    let base := match op_name_scope with
      | some sc => sc ++ "/" ++ op
      | none => op
    let n := mk_node base op g.counter inputs attrs output_count
    let g2 : Graph :=
      { g with counter := g.counter + 1,
               nodes := g.nodes ++ [n],
               shapes := record_shapes n.output shapes ++ g.shapes,
               dtypes := record_dtypes n.output dtypes ++ g.dtypes }
    (Except.ok n, g2)

/-- Modelled from the spec: `utils.make_name`, the unique-name generator. -/
def make_name (base : String) : M String := fun g =>
  (Except.ok (gen_name base g.counter), { g with counter := g.counter + 1 })

/-- Modelled from the spec: constant-tensor creation under an already
generated name. -/
def make_const (name : String) (value : List Int) : M Node := fun g =>
  let n : Node := { name := name, op_type := "Const", inputs := [],
                    output := [name ++ ":0"], attrs := [("value", AttrValue.ints value)] }
  (Except.ok n, { g with nodes := g.nodes ++ [n] })

/-- Python `node.output[0]`; raises `IndexError` when there is no output. -/
def out0 (n : Node) : M String := fun g =>
  match n.output.head? with
  | some o => (Except.ok o, g)
  | none => (Except.error "IndexError: list index out of range", g)

/-- Python `nodes[-1].output[0]` on the adapter's returned node list. -/
def last_output (nodes : List Node) : M String := fun g =>
  match nodes.getLast? with
  | none => (Except.error "IndexError: list index out of range", g)
  | some n =>
    match n.output.head? with
    | some o => (Except.ok o, g)
    | none => (Except.error "IndexError: list index out of range", g)

/-- Python `node.output[i]`; raises `IndexError` when out of range. -/
def node_out (n : Node) (i : Nat) : M String := fun g =>
  match n.output[i]? with
  | some o => (Except.ok o, g)
  | none => (Except.error "IndexError: list index out of range", g)

/-- Modelled from the spec (section 3): one loop-carried variable as assembled by
the external loop-extraction framework. -/
structure LoopVar where
  enter_name : String
  enter_input_id : String
  is_tensor_array : Bool
  switch_true_identity_output : TensorValueInfo
deriving DecidableEq

/-- Modelled from the spec (section 3): the `LoopProperties` classification of the
loop-carried values of one loop region.  `all_variables` is iterated in order
(the map's values); the parallel state/scan lists obey the index-correspondence
invariant of the spec. -/
structure LoopProperties where
  all_variables : List LoopVar
  state_inputs : List TensorValueInfo
  state_inputs_initial_values : List String
  state_outputs : List TensorValueInfo
  state_outputs_exits : List TensorValueInfo
  scan_inputs : List TensorValueInfo
  scan_inputs_initial_values : List String
  scan_outputs : List TensorValueInfo
  scan_outputs_exits : List TensorValueInfo
  tensor_array_inputs : List String
deriving DecidableEq

/-- Modelled from the spec (section 3): the extracted per-iteration body subgraph
reference held by the rewrite context. -/
structure CellGraph where
  nodes : List Node
  outputs : List String
deriving DecidableEq

/-- The `CustomRnnContext` of the source: the base context's scope name, loop
properties and cell graph, plus the fields `rnn_scope`, `time_var`,
`iteration_var` initialized to `None` by `CustomRnnContext.__init__`. -/
structure Context where
  while_context_scope : String
  loop_properties : LoopProperties
  cell_graph : CellGraph
  rnn_scope : String
  time_var : Option LoopVar
  iteration_var : Option LoopVar
deriving DecidableEq

/-- The two-valued `REWRITER_RESULT` returned by `rewrite`. -/
inductive REWRITER_RESULT where
  | OK
  | FAIL
deriving DecidableEq

deriving instance DecidableEq for Except

/-- Python `str.split('/')`, structurally on the character list: splits at every
slash, keeping empty pieces (so `"a/b/"` gives `["a", "b", ""]`). -/
def split_slash : List Char → List Char → List String
  | [], acc => [String.mk acc.reverse]
  | c :: cs, acc =>
    if c = '/' then String.mk acc.reverse :: split_slash cs []
    else split_slash cs (c :: acc)

/-- Python `'/'.join`, structurally. -/
def join_slash : List String → String
  | [] => ""
  | [a] => a
  | a :: rest => a ++ "/" ++ join_slash rest

/-- Python `str.startswith`, structurally on the character lists. -/
def str_starts_with (s pre : String) : Bool :=
  pre.data.isPrefixOf s.data

/-- `CustomRnnRewriter._get_rnn_scope_name`: drop the last two path components of
the while-loop's scope name and append a slash
(`'/'.join(parts[0:-2]) + "/"`). -/
def _get_rnn_scope_name (while_scope_name : String) : String :=
  let parts := split_slash while_scope_name.data []
  join_slash parts.dropLast.dropLast ++ "/"

/-- One iteration of the `for val in context.loop_properties.all_variables.values()`
loop of `CustomRnnRewriter._parse_rnn_loop`.  The accumulator is
`(found_time, is_rnn_out_ta, context)`.  A failed node lookup or a missing
`tensor_array_name` attribute raises, as the Python attribute access would. -/
def parse_step (g : Graph) (time_name iter_name pfx : String)
    (acc : Bool × Option Bool × Context) (val : LoopVar) :
    Except String (Bool × Option Bool × Context) :=
  match g.get_node_by_output val.enter_input_id with
  | none => Except.error "AttributeError: NoneType object has no attribute name"
  | some n =>
    if val.is_tensor_array then
      match n.get_attr_s "tensor_array_name" with
      | none => Except.error "AttributeError: NoneType object has no attribute s"
      | some ta_name =>
        if str_starts_with ta_name pfx then Except.ok acc
        else Except.ok (acc.1, some false, acc.2.2)
    else if n.name = time_name then
      Except.ok (true, acc.2.1, { acc.2.2 with time_var := some val })
    else if n.name = iter_name then
      Except.ok (acc.1, acc.2.1, { acc.2.2 with iteration_var := some val })
    else Except.ok acc

/-- The whole classification loop of `_parse_rnn_loop`, folded over the
loop-carried variables. -/
def parse_vars (g : Graph) (time_name iter_name pfx : String) :
    List LoopVar → (Bool × Option Bool × Context) →
    Except String (Bool × Option Bool × Context)
  | [], acc => Except.ok acc
  | v :: rest, acc =>
    match parse_step g time_name iter_name pfx acc v with
    | Except.error e => Except.error e
    | Except.ok acc2 => parse_vars g time_name iter_name pfx rest acc2

/-- `CustomRnnRewriter._parse_rnn_loop`: classify all loop-carried variables and
accept iff the step counter was found and no tensor-array name mismatched the
derived prefix.  Returns the decision together with the mutated context. -/
def _parse_rnn_loop (ctx : Context) (g : Graph) : Except String (Bool × Context) :=
  let time_name := ctx.rnn_scope ++ "time"
  let pfx := ctx.rnn_scope ++ "dynamic_rnn/output_"
  let iter_name := ctx.while_context_scope ++ "iteration_counter"
  match parse_vars g time_name iter_name pfx ctx.loop_properties.all_variables
      (false, none, ctx) with
  | Except.error e => Except.error e
  | Except.ok (found_time, is_rnn_out_ta, ctx2) =>
    if found_time = false ∨ is_rnn_out_ta = some false then Except.ok (false, ctx2)
    else Except.ok (true, ctx2)

/-- `CustomRnnRewriter._parse_time_var` only logs the time variable's endpoints;
its sole observable effect is the attribute access on `context.time_var`, which
raises when the variable is absent. -/
def _parse_time_var (ctx : Context) : Except String Unit :=
  match ctx.time_var with
  | none => Except.error "AttributeError: NoneType object has no attribute enter_name"
  | some _ => Except.ok ()

/-- `CustomRnnRewriter.need_rewrite`: derive the scope, run `_parse_rnn_loop`,
then require at least one tensor-array input.  Returns the decision with the
mutated context. -/
def need_rewrite (ctx : Context) (g : Graph) : Except String (Bool × Context) :=
  let ctx1 := { ctx with rnn_scope := _get_rnn_scope_name ctx.while_context_scope }
  match _parse_rnn_loop ctx1 g with
  | Except.error e => Except.error e
  | Except.ok (false, ctx2) => Except.ok (false, ctx2)
  | Except.ok (true, ctx2) =>
    match _parse_time_var ctx2 with
    | Except.error e => Except.error e
    | Except.ok _ =>
      if ctx2.loop_properties.tensor_array_inputs = [] then Except.ok (false, ctx2)
      else Except.ok (true, ctx2)

/-- ONNX `TensorProto.FLOAT`. -/
def onnx_FLOAT : Int := 1

/-- ONNX `TensorProto.INT64`. -/
def onnx_INT64 : Int := 7

/-- Python `sys.maxsize` on a 64-bit build, used as the `Slice` end bound. -/
def sys_maxsize : Int := 9223372036854775807

/-- The dynamic-shape path of the output direction of
`_adapt_scan_sequence_input_or_output`: cast the runtime shape to float, slice
off the first axis, cast back to int64.  Returns the accumulated node list and
the node whose output drives the final reshape. -/
def adapt_out_dyn (shape_node : Node) : M (List Node × Node) :=
  M.bind (out0 shape_node) fun sho =>
  M.bind (make_node "Cast" [sho] [("to", AttrValue.int onnx_FLOAT)] 1 [] [] none) fun c1 =>
  M.bind (out0 c1) fun c1o =>
  M.bind (make_node "Slice" [c1o]
      [("axes", AttrValue.ints [0]), ("starts", AttrValue.ints [1]),
       ("ends", AttrValue.ints [sys_maxsize])] 1 [] [] none) fun sl =>
  M.bind (out0 sl) fun slo =>
  M.bind (make_node "Cast" [slo] [("to", AttrValue.int onnx_INT64)] 1 [] [] none) fun c2 =>
  M.pure ([shape_node, c1, sl, c2], c2)

/-- The output-direction branch choosing between a constant target shape (at most
one unresolved dimension after dropping the leading axis) and the dynamic path. -/
def adapt_out_mid (tn : String) (shape_node : Node) (inferred : Option (List Int)) :
    M (List Node × Node) :=
  match inferred with
  | some s =>
    if (s.drop 1).count (-1) ≤ 1 then
      M.bind (make_name (tn ++ "_target_shape")) fun nm =>
      M.bind (make_const nm (s.drop 1)) fun cn =>
      M.pure ([shape_node, cn], cn)
    else adapt_out_dyn shape_node
  | none => adapt_out_dyn shape_node

/-- The dynamic-shape path of the input direction: a constant `[1]` is
concatenated in front of the runtime shape. -/
def adapt_in_dyn (tn : String) (shape_node : Node) : M (List Node × Node) :=
  M.bind (make_name (tn ++ "_target_shape")) fun nm =>
  M.bind (make_const nm [(1 : Int)]) fun fb =>
  M.bind (out0 fb) fun fbo =>
  M.bind (out0 shape_node) fun sho =>
  M.bind (make_node "Concat" [fbo, sho] [("axis", AttrValue.int 0)] 1 [] [] none) fun cc =>
  M.pure ([shape_node, fb, cc], cc)

/-- The input-direction branch choosing between a constant target shape
`[1] + shape` (at most one unresolved dimension) and the dynamic path. -/
def adapt_in_mid (tn : String) (shape_node : Node) (inferred : Option (List Int)) :
    M (List Node × Node) :=
  match inferred with
  | some s =>
    if s.count (-1) ≤ 1 then
      M.bind (make_name (tn ++ "_target_shape")) fun nm =>
      M.bind (make_const nm ((1 : Int) :: s)) fun cn =>
      M.pure ([shape_node, cn], cn)
    else adapt_in_dyn tn shape_node
  | none => adapt_in_dyn tn shape_node

/-- `CustomRnnRewriter._adapt_scan_sequence_input_or_output`: always creates a
`Shape` node first, chooses the constant or dynamic target-shape computation,
then (as in the source, unconditionally for the taken direction) computes the
declared `new_shape` from the inferred shape — raising a `TypeError` exactly
where Python evaluates `inferred_shape[1:]` resp. `[1] + inferred_shape` on
`None` — and finally appends the `Reshape` node. -/
def _adapt_scan_sequence_input_or_output (tn input_id : String) (handle_output : Bool) :
    M (List Node) :=
  M.bind (make_node "Shape" [input_id] [] 1 [] [] none) fun shape_node =>
  M.bind (M.get fun g => g.get_shape input_id) fun inferred =>
  M.bind
    (if handle_output then
      M.bind (adapt_out_mid tn shape_node inferred) fun p =>
      match inferred with
      | none => M.throw "TypeError: NoneType object is not subscriptable"
      | some s => M.pure (p.1, p.2, s.drop 1)
    else
      M.bind (adapt_in_mid tn shape_node inferred) fun p =>
      match inferred with
      | none => M.throw "TypeError: can only concatenate list (not NoneType) to list"
      | some s => M.pure (p.1, p.2, (1 : Int) :: s)) fun q =>
  M.bind (out0 q.2.1) fun nso =>
  M.bind (M.get fun g => g.get_dtype input_id) fun dt =>
  M.bind (make_node "Reshape" [input_id, nso] [] 1 [some q.2.2] [dt] (some tn)) fun rn =>
  M.pure (q.1 ++ [rn])

/-- The two `for state_input in ...initial_values` loops of `rewrite`: adapt each
initial value in the input direction and collect `nodes[-1].output[0]`. -/
def adapt_all (tn : String) : List String → M (List String)
  | [] => M.pure []
  | id :: rest =>
    M.bind (_adapt_scan_sequence_input_or_output tn id false) fun nodes =>
    M.bind (last_output nodes) fun o =>
    M.bind (adapt_all tn rest) fun os =>
    M.pure (o :: os)

/-- The exit-tensor loop of `_create_scan_node`: for each exit with a non-empty
id, record `[1] + shape` and the dtype and remove the original exit node from
the graph; for an absent id, record `None` placeholders.  The shape is read
(raising on `None`, as `[1] + tensor_value_info.shape` would) before the exit
node is looked up and removed. -/
def collect_scan_outputs : List TensorValueInfo →
    M (List (Option (List Int)) × List (Option Nat))
  | [] => M.pure ([], [])
  | tvi :: rest =>
    if tvi.id = "" then
      M.bind (collect_scan_outputs rest) fun p =>
      M.pure (none :: p.1, none :: p.2)
    else
      match tvi.shape with
      | none => M.throw "TypeError: can only concatenate list (not NoneType) to list"
      | some s =>
        M.bind (M.get fun g => g.get_node_by_output tvi.id) fun onode =>
        match onode with
        | none => M.throw "AttributeError: NoneType object has no attribute name"
        | some n =>
          M.bind (M.modify fun g => g.remove_node n.name) fun _ =>
          M.bind (collect_scan_outputs rest) fun p =>
          M.pure (some ((1 : Int) :: s) :: p.1, some tvi.dtype :: p.2)

/-- `CustomRnnRewriter._create_scan_node`: collect declared output shapes and
dtypes from the original exit tensors (removing the surviving exit nodes), then
create the `Scan` node with an empty leading input slot, the adapted initial
values, and `num_scan_inputs = len(scan_inputs)`. -/
def _create_scan_node (scan_props : LoopProperties) (init_values : List String) : M Node :=
  M.bind (collect_scan_outputs (scan_props.state_outputs_exits ++ scan_props.scan_outputs_exits))
    fun p =>
  make_node "Scan" ("" :: init_values)
    [("num_scan_inputs", AttrValue.int (Int.ofNat scan_props.scan_inputs.length))]
    (scan_props.state_outputs ++ scan_props.scan_outputs).length p.1 p.2
    (some "custom_rnn_scan")

/-- One of the two loops of `_connect_scan_with_output`: walk the exit tensors,
keeping a running positional index into the scan node's outputs; a non-empty exit
is adapted in the output direction and all its consumers rewired to the adapter's
final output; an empty exit only advances the index. -/
def connect_exits (tn : String) (scan_node : Node) :
    List TensorValueInfo → Nat → M Nat
  | [], i => M.pure i
  | tvi :: rest, i =>
    if tvi.id = "" then connect_exits tn scan_node rest (i + 1)
    else
      M.bind (node_out scan_node i) fun so =>
      M.bind (_adapt_scan_sequence_input_or_output tn so true) fun nodes =>
      M.bind (last_output nodes) fun lo =>
      M.bind (M.modify fun g => g.replace_all_inputs tvi.id lo) fun _ =>
      connect_exits tn scan_node rest (i + 1)

/-- `CustomRnnRewriter._connect_scan_with_output`: state exits first, then scan
exits, sharing one positional index. -/
def _connect_scan_with_output (ctx : Context) (scan_node : Node) : M Unit :=
  M.bind (connect_exits "state_output_reshape" scan_node
      ctx.loop_properties.state_outputs_exits 0) fun i =>
  M.bind (connect_exits "scan_output_reshape" scan_node
      ctx.loop_properties.scan_outputs_exits i) fun _ =>
  M.pure ()

/-- The body of the `try` block of `CustomRnnRewriter.rewrite`: adapt the state
and scan initial values, build the body subgraph and declare its inputs (state
inputs first, then scan inputs), create the scan node, attach the body, and
reconnect the outputs.  (The source's `if not scan_node` guard cannot fire in
this model because a failed node construction raises instead of returning a
falsy value; either way the overall result is FAIL.) -/
def rewrite_body (ctx : Context) : M REWRITER_RESULT :=
  let scan_props := ctx.loop_properties
  M.bind (adapt_all "input" scan_props.state_inputs_initial_values) fun state_vals =>
  M.bind (adapt_all "input" scan_props.scan_inputs_initial_values) fun scan_vals =>
  let cell := ctx.cell_graph
  let body0 := construct_graph_from_nodes cell.nodes cell.outputs
  let body1 := scan_props.state_inputs.foldl
    (fun bg t => bg.add_graph_input t.id t.dtype t.shape) body0
  let body2 := scan_props.scan_inputs.foldl
    (fun bg t => bg.add_graph_input t.id t.dtype t.shape) body1
  M.bind (_create_scan_node scan_props (state_vals ++ scan_vals)) fun scan_node =>
  M.bind (M.modify fun g => g.set_body scan_node.name body2) fun _ =>
  M.bind (_connect_scan_with_output ctx scan_node) fun _ =>
  M.pure REWRITER_RESULT.OK

/-- `CustomRnnRewriter.rewrite`: the `try`/`except` wrapper.  Any fault raised
by the body is caught and converted to the FAIL result; the graph keeps every
mutation applied up to the fault, exactly as the in-place Python mutation does. -/
def rewrite (ctx : Context) : Graph → Except String REWRITER_RESULT × Graph := fun g =>
  match rewrite_body ctx g with
  | (Except.ok r, g2) => (Except.ok r, g2)
  | (Except.error _, g2) => (Except.ok REWRITER_RESULT.FAIL, g2)

/-- A loop-carried variable whose classification step cannot raise: its enter
input resolves to a node, and if it is a tensor array the node carries a
`tensor_array_name` string attribute. -/
def var_ok (g : Graph) (v : LoopVar) : Bool :=
  match g.get_node_by_output v.enter_input_id with
  | none => false
  | some n => !v.is_tensor_array || (n.get_attr_s "tensor_array_name").isSome

/-- A tensor-array variable whose declared tensor-array name does not start
with the derived accumulator name root `pfx`. -/
def bad_ta_var (g : Graph) (pfx : String) (v : LoopVar) : Bool :=
  match g.get_node_by_output v.enter_input_id with
  | none => false
  | some n =>
    v.is_tensor_array &&
      (match n.get_attr_s "tensor_array_name" with
       | some s => !(str_starts_with s pfx)
       | none => false)

/-- A tensor-array variable whose declared tensor-array name does start with
the derived accumulator name root `pfx`. -/
def good_ta_var (g : Graph) (pfx : String) (v : LoopVar) : Bool :=
  match g.get_node_by_output v.enter_input_id with
  | none => false
  | some n =>
    v.is_tensor_array &&
      (match n.get_attr_s "tensor_array_name" with
       | some s => str_starts_with s pfx
       | none => false)

/-- A non-tensor-array variable whose enter input node is named exactly
`time_name` (the step counter of the pattern). -/
def time_var_match (g : Graph) (time_name : String) (v : LoopVar) : Bool :=
  match g.get_node_by_output v.enter_input_id with
  | none => false
  | some n => !v.is_tensor_array && (n.name == time_name)

/-- A non-tensor-array variable that falls into the `iteration_counter` branch
of the classification: its enter input node is named exactly `iter_name` and is
not named `time_name` (the time branch is checked first in the source). -/
def iter_var_match (g : Graph) (time_name iter_name : String) (v : LoopVar) : Bool :=
  match g.get_node_by_output v.enter_input_id with
  | none => false
  | some n => !v.is_tensor_array && (n.name != time_name) && (n.name == iter_name)

/-! Concrete loop regions used by the end-to-end theorems and the witnesses.
The while-loop scope `rnn/while/` derives the scope `rnn/`, so the step counter
node is named `rnn/time` and accumulator names must start with
`rnn/dynamic_rnn/output_`. -/

/-- Enter input node of the step counter: named `rnn/time`. -/
def e2eTimeInitNode : Node := ⟨"rnn/time", "Const", [], ["rnn/time:0"], []⟩

/-- Enter input node of the per-step state variable. -/
def e2eStateInitNode : Node := ⟨"state_init", "Const", [], ["state_init:0"], []⟩

/-- Enter input node of the sequence accumulator, declared with a conforming
tensor-array name. -/
def e2eTaInitNode : Node :=
  ⟨"ta_init", "TensorArrayV3", [], ["ta_init:0"],
   [("tensor_array_name", AttrValue.str "rnn/dynamic_rnn/output_0")]⟩

/-- The original exit node of the state variable. -/
def e2eExitStateNode : Node := ⟨"exit_state", "Exit", ["sw_state:0"], ["exit_state:0"], []⟩

/-- The original exit node of the accumulator. -/
def e2eExitScanNode : Node := ⟨"exit_scan", "Exit", ["sw_scan:0"], ["exit_scan:0"], []⟩

/-- A downstream consumer of both exit tensors. -/
def e2eConsumerNode : Node :=
  ⟨"consumer", "Add", ["exit_state:0", "exit_scan:0"], ["consumer:0"], []⟩

/-- The step-counter loop variable. -/
def e2eTimeVar : LoopVar := ⟨"rnn/while/Enter", "rnn/time:0", false, ⟨"sw_time:0", some [], 6⟩⟩

/-- The per-step state loop variable of static shape `[4]`. -/
def e2eStateVar : LoopVar :=
  ⟨"rnn/while/Enter_1", "state_init:0", false, ⟨"sw_state:0", some [4], 1⟩⟩

/-- The sequence-accumulator loop variable of per-step shape `[4]`. -/
def e2eTaVar : LoopVar := ⟨"rnn/while/Enter_2", "ta_init:0", true, ⟨"sw_scan:0", some [4], 1⟩⟩

/-- Loop properties of the end-to-end region: one state variable and one
accumulator input/output pair, all of static per-step shape `[4]`. -/
def e2eProps : LoopProperties :=
  { all_variables := [e2eTimeVar, e2eStateVar, e2eTaVar]
    state_inputs := [⟨"cell/state_in:0", some [4], 1⟩]
    state_inputs_initial_values := ["state_init:0"]
    state_outputs := [⟨"cell/state_out:0", some [4], 1⟩]
    state_outputs_exits := [⟨"exit_state:0", some [4], 1⟩]
    scan_inputs := [⟨"cell/x_in:0", some [4], 1⟩]
    scan_inputs_initial_values := ["ta_init:0"]
    scan_outputs := [⟨"cell/x_out:0", some [4], 1⟩]
    scan_outputs_exits := [⟨"exit_scan:0", some [4], 1⟩]
    tensor_array_inputs := ["ta_init:0"] }

/-- The extracted cell subgraph of the end-to-end region. -/
def e2eCell : CellGraph := ⟨[], ["cell/state_out:0", "cell/x_out:0"]⟩

/-- The rewrite context of the end-to-end region. -/
def e2eCtx : Context := ⟨"rnn/while/", e2eProps, e2eCell, "", none, none⟩

/-- The surrounding graph of the end-to-end region. -/
def e2eGraph : Graph :=
  { nodes := [e2eTimeInitNode, e2eStateInitNode, e2eTaInitNode,
              e2eExitStateNode, e2eExitScanNode, e2eConsumerNode]
    shapes := [("state_init:0", [4]), ("ta_init:0", [4])]
    dtypes := [("state_init:0", 1), ("ta_init:0", 1)]
    bodies := []
    counter := 0
    failing_ops := [] }

/-- The end-to-end graph with an injected internal graph-building fault on
`Scan` construction. -/
def e2eGraphFail : Graph := { e2eGraph with failing_ops := ["Scan"] }

/-- Step-counter enter input node of the mixed-accumulator region. -/
def c2TimeNode : Node := ⟨"rnn/time", "Const", [], ["c2_time:0"], []⟩

/-- A conforming accumulator declaration. -/
def c2GoodTaNode : Node :=
  ⟨"ta_good", "TensorArrayV3", [], ["ta_good:0"],
   [("tensor_array_name", AttrValue.str "rnn/dynamic_rnn/output_0")]⟩

/-- A non-conforming accumulator declaration (it belongs to a nested loop). -/
def c2BadTaNode : Node :=
  ⟨"ta_bad", "TensorArrayV3", [], ["ta_bad:0"],
   [("tensor_array_name", AttrValue.str "nested/dynamic_rnn/output_0")]⟩

/-- The step-counter variable of the mixed-accumulator region. -/
def c2TimeVar : LoopVar := ⟨"e_t", "c2_time:0", false, ⟨"", none, 0⟩⟩

/-- The conforming accumulator variable. -/
def c2GoodVar : LoopVar := ⟨"e_g", "ta_good:0", true, ⟨"", none, 0⟩⟩

/-- The non-conforming accumulator variable. -/
def c2BadVar : LoopVar := ⟨"e_b", "ta_bad:0", true, ⟨"", none, 0⟩⟩

/-- Loop properties with a step counter, a conforming accumulator input, and an
additional non-conforming accumulator variable. -/
def c2Props : LoopProperties :=
  { all_variables := [c2TimeVar, c2GoodVar, c2BadVar]
    state_inputs := []
    state_inputs_initial_values := []
    state_outputs := []
    state_outputs_exits := []
    scan_inputs := []
    scan_inputs_initial_values := []
    scan_outputs := []
    scan_outputs_exits := []
    tensor_array_inputs := ["ta_good:0"] }

/-- Context of the mixed-accumulator region. -/
def c2Ctx : Context := ⟨"rnn/while/", c2Props, ⟨[], []⟩, "", none, none⟩

/-- Graph of the mixed-accumulator region. -/
def c2Graph : Graph := ⟨[c2TimeNode, c2GoodTaNode, c2BadTaNode], [], [], [], 0, []⟩

/-- A node named exactly derived-scope + `iteration_counter` (the derived scope
of `a/b/while/` is `a/b/`). -/
def c8IterNode : Node := ⟨"a/b/iteration_counter", "Const", [], ["a/b/iteration_counter:0"], []⟩

/-- A non-tensor-array variable entering from that node. -/
def c8Var : LoopVar := ⟨"e_i", "a/b/iteration_counter:0", false, ⟨"", none, 0⟩⟩

/-- Loop properties containing only that variable. -/
def c8Props : LoopProperties :=
  { all_variables := [c8Var]
    state_inputs := []
    state_inputs_initial_values := []
    state_outputs := []
    state_outputs_exits := []
    scan_inputs := []
    scan_inputs_initial_values := []
    scan_outputs := []
    scan_outputs_exits := []
    tensor_array_inputs := ["x"] }

/-- Context of the derived-scope iteration-counter region. -/
def c8Ctx : Context := ⟨"a/b/while/", c8Props, ⟨[], []⟩, "", none, none⟩

/-- Graph of the derived-scope iteration-counter region. -/
def c8Graph : Graph := ⟨[c8IterNode], [], [], [], 0, []⟩

/-- A node named exactly while-context-scope + `iteration_counter`. -/
def c8wIterNode : Node := ⟨"a/b/while/iteration_counter", "Const", [], ["wic:0"], []⟩

/-- Step-counter enter input node for the same region (`a/b/time`). -/
def c8wTimeNode : Node := ⟨"a/b/time", "Const", [], ["wt:0"], []⟩

/-- The internal iteration-counter variable. -/
def c8wIterVar : LoopVar := ⟨"e_wi", "wic:0", false, ⟨"", none, 0⟩⟩

/-- The step-counter variable of the same region. -/
def c8wTimeVar : LoopVar := ⟨"e_wt", "wt:0", false, ⟨"", none, 0⟩⟩

/-- Loop properties with both counters. -/
def c8wProps : LoopProperties :=
  { all_variables := [c8wTimeVar, c8wIterVar]
    state_inputs := []
    state_inputs_initial_values := []
    state_outputs := []
    state_outputs_exits := []
    scan_inputs := []
    scan_inputs_initial_values := []
    scan_outputs := []
    scan_outputs_exits := []
    tensor_array_inputs := ["x"] }

/-- Context of the while-scope iteration-counter region. -/
def c8wCtx : Context := ⟨"a/b/while/", c8wProps, ⟨[], []⟩, "", none, none⟩

/-- Graph of the while-scope iteration-counter region. -/
def c8wGraph : Graph := ⟨[c8wIterNode, c8wTimeNode], [], [], [], 0, []⟩

/-- A graph holding one tensor of fully static shape `[2, 3, 4]`. -/
def w5Graph : Graph := ⟨[], [("x:0", [2, 3, 4])], [], [], 0, []⟩

/-- A graph holding one tensor whose shape past the leading axis has two
unresolved dimensions. -/
def w6Graph : Graph := ⟨[], [("y:0", [1, -1, -1])], [], [], 0, []⟩

/-- A graph in which tensor `z:0` has no known shape at all. -/
def w7Graph : Graph := ⟨[], [], [], [], 0, []⟩

/-- Intermediate literal value of the staged end-to-end evaluation. -/
def e2eG1 : Graph :=
  { nodes := [{ name := "rnn/time", op_type := "Const", inputs := [], output := ["rnn/time:0"], attrs := [] },
              { name := "state_init", op_type := "Const", inputs := [], output := ["state_init:0"], attrs := [] },
              { name := "ta_init",
                op_type := "TensorArrayV3",
                inputs := [],
                output := ["ta_init:0"],
                attrs := [("tensor_array_name", CustomRnn.AttrValue.str "rnn/dynamic_rnn/output_0")] },
              { name := "exit_state",
                op_type := "Exit",
                inputs := ["sw_state:0"],
                output := ["exit_state:0"],
                attrs := [] },
              { name := "exit_scan", op_type := "Exit", inputs := ["sw_scan:0"], output := ["exit_scan:0"], attrs := [] },
              { name := "consumer",
                op_type := "Add",
                inputs := ["exit_state:0", "exit_scan:0"],
                output := ["consumer:0"],
                attrs := [] },
              { name := "Shape__0",
                op_type := "Shape",
                inputs := ["state_init:0"],
                output := ["Shape__0:0"],
                attrs := [] },
              { name := "input_target_shape__1",
                op_type := "Const",
                inputs := [],
                output := ["input_target_shape__1:0"],
                attrs := [("value", CustomRnn.AttrValue.ints [1, 4])] },
              { name := "input/Reshape__2",
                op_type := "Reshape",
                inputs := ["state_init:0", "input_target_shape__1:0"],
                output := ["input/Reshape__2:0"],
                attrs := [] }],
    shapes := [("input/Reshape__2:0", [1, 4]), ("state_init:0", [4]), ("ta_init:0", [4])],
    dtypes := [("input/Reshape__2:0", 1), ("state_init:0", 1), ("ta_init:0", 1)],
    bodies := [],
    counter := 3,
    failing_ops := [] }

/-- Intermediate literal value of the staged end-to-end evaluation. -/
def e2eG2 : Graph :=
  { nodes := [{ name := "rnn/time", op_type := "Const", inputs := [], output := ["rnn/time:0"], attrs := [] },
              { name := "state_init", op_type := "Const", inputs := [], output := ["state_init:0"], attrs := [] },
              { name := "ta_init",
                op_type := "TensorArrayV3",
                inputs := [],
                output := ["ta_init:0"],
                attrs := [("tensor_array_name", CustomRnn.AttrValue.str "rnn/dynamic_rnn/output_0")] },
              { name := "exit_state",
                op_type := "Exit",
                inputs := ["sw_state:0"],
                output := ["exit_state:0"],
                attrs := [] },
              { name := "exit_scan", op_type := "Exit", inputs := ["sw_scan:0"], output := ["exit_scan:0"], attrs := [] },
              { name := "consumer",
                op_type := "Add",
                inputs := ["exit_state:0", "exit_scan:0"],
                output := ["consumer:0"],
                attrs := [] },
              { name := "Shape__0",
                op_type := "Shape",
                inputs := ["state_init:0"],
                output := ["Shape__0:0"],
                attrs := [] },
              { name := "input_target_shape__1",
                op_type := "Const",
                inputs := [],
                output := ["input_target_shape__1:0"],
                attrs := [("value", CustomRnn.AttrValue.ints [1, 4])] },
              { name := "input/Reshape__2",
                op_type := "Reshape",
                inputs := ["state_init:0", "input_target_shape__1:0"],
                output := ["input/Reshape__2:0"],
                attrs := [] },
              { name := "Shape__3", op_type := "Shape", inputs := ["ta_init:0"], output := ["Shape__3:0"], attrs := [] },
              { name := "input_target_shape__4",
                op_type := "Const",
                inputs := [],
                output := ["input_target_shape__4:0"],
                attrs := [("value", CustomRnn.AttrValue.ints [1, 4])] },
              { name := "input/Reshape__5",
                op_type := "Reshape",
                inputs := ["ta_init:0", "input_target_shape__4:0"],
                output := ["input/Reshape__5:0"],
                attrs := [] }],
    shapes := [("input/Reshape__5:0", [1, 4]), ("input/Reshape__2:0", [1, 4]), ("state_init:0", [4]), ("ta_init:0", [4])],
    dtypes := [("input/Reshape__5:0", 1), ("input/Reshape__2:0", 1), ("state_init:0", 1), ("ta_init:0", 1)],
    bodies := [],
    counter := 6,
    failing_ops := [] }

/-- Intermediate literal value of the staged end-to-end evaluation. -/
def e2eScanNode : Node :=
  { name := "custom_rnn_scan/Scan__6",
    op_type := "Scan",
    inputs := ["", "input/Reshape__2:0", "input/Reshape__5:0"],
    output := ["custom_rnn_scan/Scan__6:0", "custom_rnn_scan/Scan__6:1"],
    attrs := [("num_scan_inputs", CustomRnn.AttrValue.int 1)] }

/-- Intermediate literal value of the staged end-to-end evaluation. -/
def e2eG3 : Graph :=
  { nodes := [{ name := "rnn/time", op_type := "Const", inputs := [], output := ["rnn/time:0"], attrs := [] },
              { name := "state_init", op_type := "Const", inputs := [], output := ["state_init:0"], attrs := [] },
              { name := "ta_init",
                op_type := "TensorArrayV3",
                inputs := [],
                output := ["ta_init:0"],
                attrs := [("tensor_array_name", CustomRnn.AttrValue.str "rnn/dynamic_rnn/output_0")] },
              { name := "consumer",
                op_type := "Add",
                inputs := ["exit_state:0", "exit_scan:0"],
                output := ["consumer:0"],
                attrs := [] },
              { name := "Shape__0",
                op_type := "Shape",
                inputs := ["state_init:0"],
                output := ["Shape__0:0"],
                attrs := [] },
              { name := "input_target_shape__1",
                op_type := "Const",
                inputs := [],
                output := ["input_target_shape__1:0"],
                attrs := [("value", CustomRnn.AttrValue.ints [1, 4])] },
              { name := "input/Reshape__2",
                op_type := "Reshape",
                inputs := ["state_init:0", "input_target_shape__1:0"],
                output := ["input/Reshape__2:0"],
                attrs := [] },
              { name := "Shape__3", op_type := "Shape", inputs := ["ta_init:0"], output := ["Shape__3:0"], attrs := [] },
              { name := "input_target_shape__4",
                op_type := "Const",
                inputs := [],
                output := ["input_target_shape__4:0"],
                attrs := [("value", CustomRnn.AttrValue.ints [1, 4])] },
              { name := "input/Reshape__5",
                op_type := "Reshape",
                inputs := ["ta_init:0", "input_target_shape__4:0"],
                output := ["input/Reshape__5:0"],
                attrs := [] },
              { name := "custom_rnn_scan/Scan__6",
                op_type := "Scan",
                inputs := ["", "input/Reshape__2:0", "input/Reshape__5:0"],
                output := ["custom_rnn_scan/Scan__6:0", "custom_rnn_scan/Scan__6:1"],
                attrs := [("num_scan_inputs", CustomRnn.AttrValue.int 1)] }],
    shapes := [("custom_rnn_scan/Scan__6:0", [1, 4]),
               ("custom_rnn_scan/Scan__6:1", [1, 4]),
               ("input/Reshape__5:0", [1, 4]),
               ("input/Reshape__2:0", [1, 4]),
               ("state_init:0", [4]),
               ("ta_init:0", [4])],
    dtypes := [("custom_rnn_scan/Scan__6:0", 1),
               ("custom_rnn_scan/Scan__6:1", 1),
               ("input/Reshape__5:0", 1),
               ("input/Reshape__2:0", 1),
               ("state_init:0", 1),
               ("ta_init:0", 1)],
    bodies := [],
    counter := 7,
    failing_ops := [] }

/-- Intermediate literal value of the staged end-to-end evaluation. -/
def e2eBody : SubGraph :=
  { nodes := [],
    outputs := ["cell/state_out:0", "cell/x_out:0"],
    graph_inputs := [("cell/state_in:0", 1, some [4]), ("cell/x_in:0", 1, some [4])] }

/-- Intermediate literal value of the staged end-to-end evaluation. -/
def e2eG4 : Graph :=
  { nodes := [{ name := "rnn/time", op_type := "Const", inputs := [], output := ["rnn/time:0"], attrs := [] },
              { name := "state_init", op_type := "Const", inputs := [], output := ["state_init:0"], attrs := [] },
              { name := "ta_init",
                op_type := "TensorArrayV3",
                inputs := [],
                output := ["ta_init:0"],
                attrs := [("tensor_array_name", CustomRnn.AttrValue.str "rnn/dynamic_rnn/output_0")] },
              { name := "consumer",
                op_type := "Add",
                inputs := ["exit_state:0", "exit_scan:0"],
                output := ["consumer:0"],
                attrs := [] },
              { name := "Shape__0",
                op_type := "Shape",
                inputs := ["state_init:0"],
                output := ["Shape__0:0"],
                attrs := [] },
              { name := "input_target_shape__1",
                op_type := "Const",
                inputs := [],
                output := ["input_target_shape__1:0"],
                attrs := [("value", CustomRnn.AttrValue.ints [1, 4])] },
              { name := "input/Reshape__2",
                op_type := "Reshape",
                inputs := ["state_init:0", "input_target_shape__1:0"],
                output := ["input/Reshape__2:0"],
                attrs := [] },
              { name := "Shape__3", op_type := "Shape", inputs := ["ta_init:0"], output := ["Shape__3:0"], attrs := [] },
              { name := "input_target_shape__4",
                op_type := "Const",
                inputs := [],
                output := ["input_target_shape__4:0"],
                attrs := [("value", CustomRnn.AttrValue.ints [1, 4])] },
              { name := "input/Reshape__5",
                op_type := "Reshape",
                inputs := ["ta_init:0", "input_target_shape__4:0"],
                output := ["input/Reshape__5:0"],
                attrs := [] },
              { name := "custom_rnn_scan/Scan__6",
                op_type := "Scan",
                inputs := ["", "input/Reshape__2:0", "input/Reshape__5:0"],
                output := ["custom_rnn_scan/Scan__6:0", "custom_rnn_scan/Scan__6:1"],
                attrs := [("num_scan_inputs", CustomRnn.AttrValue.int 1)] }],
    shapes := [("custom_rnn_scan/Scan__6:0", [1, 4]),
               ("custom_rnn_scan/Scan__6:1", [1, 4]),
               ("input/Reshape__5:0", [1, 4]),
               ("input/Reshape__2:0", [1, 4]),
               ("state_init:0", [4]),
               ("ta_init:0", [4])],
    dtypes := [("custom_rnn_scan/Scan__6:0", 1),
               ("custom_rnn_scan/Scan__6:1", 1),
               ("input/Reshape__5:0", 1),
               ("input/Reshape__2:0", 1),
               ("state_init:0", 1),
               ("ta_init:0", 1)],
    bodies := [("custom_rnn_scan/Scan__6",
                { nodes := [],
                  outputs := ["cell/state_out:0", "cell/x_out:0"],
                  graph_inputs := [("cell/state_in:0", 1, some [4]), ("cell/x_in:0", 1, some [4])] })],
    counter := 7,
    failing_ops := [] }

/-- Intermediate literal value of the staged end-to-end evaluation. -/
def e2eG5 : Graph :=
  { nodes := [{ name := "rnn/time", op_type := "Const", inputs := [], output := ["rnn/time:0"], attrs := [] },
              { name := "state_init", op_type := "Const", inputs := [], output := ["state_init:0"], attrs := [] },
              { name := "ta_init",
                op_type := "TensorArrayV3",
                inputs := [],
                output := ["ta_init:0"],
                attrs := [("tensor_array_name", CustomRnn.AttrValue.str "rnn/dynamic_rnn/output_0")] },
              { name := "consumer",
                op_type := "Add",
                inputs := ["state_output_reshape/Reshape__9:0", "exit_scan:0"],
                output := ["consumer:0"],
                attrs := [] },
              { name := "Shape__0",
                op_type := "Shape",
                inputs := ["state_init:0"],
                output := ["Shape__0:0"],
                attrs := [] },
              { name := "input_target_shape__1",
                op_type := "Const",
                inputs := [],
                output := ["input_target_shape__1:0"],
                attrs := [("value", CustomRnn.AttrValue.ints [1, 4])] },
              { name := "input/Reshape__2",
                op_type := "Reshape",
                inputs := ["state_init:0", "input_target_shape__1:0"],
                output := ["input/Reshape__2:0"],
                attrs := [] },
              { name := "Shape__3", op_type := "Shape", inputs := ["ta_init:0"], output := ["Shape__3:0"], attrs := [] },
              { name := "input_target_shape__4",
                op_type := "Const",
                inputs := [],
                output := ["input_target_shape__4:0"],
                attrs := [("value", CustomRnn.AttrValue.ints [1, 4])] },
              { name := "input/Reshape__5",
                op_type := "Reshape",
                inputs := ["ta_init:0", "input_target_shape__4:0"],
                output := ["input/Reshape__5:0"],
                attrs := [] },
              { name := "custom_rnn_scan/Scan__6",
                op_type := "Scan",
                inputs := ["", "input/Reshape__2:0", "input/Reshape__5:0"],
                output := ["custom_rnn_scan/Scan__6:0", "custom_rnn_scan/Scan__6:1"],
                attrs := [("num_scan_inputs", CustomRnn.AttrValue.int 1)] },
              { name := "Shape__7",
                op_type := "Shape",
                inputs := ["custom_rnn_scan/Scan__6:0"],
                output := ["Shape__7:0"],
                attrs := [] },
              { name := "state_output_reshape_target_shape__8",
                op_type := "Const",
                inputs := [],
                output := ["state_output_reshape_target_shape__8:0"],
                attrs := [("value", CustomRnn.AttrValue.ints [4])] },
              { name := "state_output_reshape/Reshape__9",
                op_type := "Reshape",
                inputs := ["custom_rnn_scan/Scan__6:0", "state_output_reshape_target_shape__8:0"],
                output := ["state_output_reshape/Reshape__9:0"],
                attrs := [] }],
    shapes := [("state_output_reshape/Reshape__9:0", [4]),
               ("custom_rnn_scan/Scan__6:0", [1, 4]),
               ("custom_rnn_scan/Scan__6:1", [1, 4]),
               ("input/Reshape__5:0", [1, 4]),
               ("input/Reshape__2:0", [1, 4]),
               ("state_init:0", [4]),
               ("ta_init:0", [4])],
    dtypes := [("state_output_reshape/Reshape__9:0", 1),
               ("custom_rnn_scan/Scan__6:0", 1),
               ("custom_rnn_scan/Scan__6:1", 1),
               ("input/Reshape__5:0", 1),
               ("input/Reshape__2:0", 1),
               ("state_init:0", 1),
               ("ta_init:0", 1)],
    bodies := [("custom_rnn_scan/Scan__6",
                { nodes := [],
                  outputs := ["cell/state_out:0", "cell/x_out:0"],
                  graph_inputs := [("cell/state_in:0", 1, some [4]), ("cell/x_in:0", 1, some [4])] })],
    counter := 10,
    failing_ops := [] }

/-- Intermediate literal value of the staged end-to-end evaluation. -/
def e2eG6 : Graph :=
  { nodes := [{ name := "rnn/time", op_type := "Const", inputs := [], output := ["rnn/time:0"], attrs := [] },
              { name := "state_init", op_type := "Const", inputs := [], output := ["state_init:0"], attrs := [] },
              { name := "ta_init",
                op_type := "TensorArrayV3",
                inputs := [],
                output := ["ta_init:0"],
                attrs := [("tensor_array_name", CustomRnn.AttrValue.str "rnn/dynamic_rnn/output_0")] },
              { name := "consumer",
                op_type := "Add",
                inputs := ["state_output_reshape/Reshape__9:0", "scan_output_reshape/Reshape__12:0"],
                output := ["consumer:0"],
                attrs := [] },
              { name := "Shape__0",
                op_type := "Shape",
                inputs := ["state_init:0"],
                output := ["Shape__0:0"],
                attrs := [] },
              { name := "input_target_shape__1",
                op_type := "Const",
                inputs := [],
                output := ["input_target_shape__1:0"],
                attrs := [("value", CustomRnn.AttrValue.ints [1, 4])] },
              { name := "input/Reshape__2",
                op_type := "Reshape",
                inputs := ["state_init:0", "input_target_shape__1:0"],
                output := ["input/Reshape__2:0"],
                attrs := [] },
              { name := "Shape__3", op_type := "Shape", inputs := ["ta_init:0"], output := ["Shape__3:0"], attrs := [] },
              { name := "input_target_shape__4",
                op_type := "Const",
                inputs := [],
                output := ["input_target_shape__4:0"],
                attrs := [("value", CustomRnn.AttrValue.ints [1, 4])] },
              { name := "input/Reshape__5",
                op_type := "Reshape",
                inputs := ["ta_init:0", "input_target_shape__4:0"],
                output := ["input/Reshape__5:0"],
                attrs := [] },
              { name := "custom_rnn_scan/Scan__6",
                op_type := "Scan",
                inputs := ["", "input/Reshape__2:0", "input/Reshape__5:0"],
                output := ["custom_rnn_scan/Scan__6:0", "custom_rnn_scan/Scan__6:1"],
                attrs := [("num_scan_inputs", CustomRnn.AttrValue.int 1)] },
              { name := "Shape__7",
                op_type := "Shape",
                inputs := ["custom_rnn_scan/Scan__6:0"],
                output := ["Shape__7:0"],
                attrs := [] },
              { name := "state_output_reshape_target_shape__8",
                op_type := "Const",
                inputs := [],
                output := ["state_output_reshape_target_shape__8:0"],
                attrs := [("value", CustomRnn.AttrValue.ints [4])] },
              { name := "state_output_reshape/Reshape__9",
                op_type := "Reshape",
                inputs := ["custom_rnn_scan/Scan__6:0", "state_output_reshape_target_shape__8:0"],
                output := ["state_output_reshape/Reshape__9:0"],
                attrs := [] },
              { name := "Shape__10",
                op_type := "Shape",
                inputs := ["custom_rnn_scan/Scan__6:1"],
                output := ["Shape__10:0"],
                attrs := [] },
              { name := "scan_output_reshape_target_shape__11",
                op_type := "Const",
                inputs := [],
                output := ["scan_output_reshape_target_shape__11:0"],
                attrs := [("value", CustomRnn.AttrValue.ints [4])] },
              { name := "scan_output_reshape/Reshape__12",
                op_type := "Reshape",
                inputs := ["custom_rnn_scan/Scan__6:1", "scan_output_reshape_target_shape__11:0"],
                output := ["scan_output_reshape/Reshape__12:0"],
                attrs := [] }],
    shapes := [("scan_output_reshape/Reshape__12:0", [4]),
               ("state_output_reshape/Reshape__9:0", [4]),
               ("custom_rnn_scan/Scan__6:0", [1, 4]),
               ("custom_rnn_scan/Scan__6:1", [1, 4]),
               ("input/Reshape__5:0", [1, 4]),
               ("input/Reshape__2:0", [1, 4]),
               ("state_init:0", [4]),
               ("ta_init:0", [4])],
    dtypes := [("scan_output_reshape/Reshape__12:0", 1),
               ("state_output_reshape/Reshape__9:0", 1),
               ("custom_rnn_scan/Scan__6:0", 1),
               ("custom_rnn_scan/Scan__6:1", 1),
               ("input/Reshape__5:0", 1),
               ("input/Reshape__2:0", 1),
               ("state_init:0", 1),
               ("ta_init:0", 1)],
    bodies := [("custom_rnn_scan/Scan__6",
                { nodes := [],
                  outputs := ["cell/state_out:0", "cell/x_out:0"],
                  graph_inputs := [("cell/state_in:0", 1, some [4]), ("cell/x_in:0", 1, some [4])] })],
    counter := 13,
    failing_ops := [] }

/-- Intermediate literal value of the staged end-to-end evaluation. -/
def e2eG1F : Graph :=
  { nodes := [{ name := "rnn/time", op_type := "Const", inputs := [], output := ["rnn/time:0"], attrs := [] },
              { name := "state_init", op_type := "Const", inputs := [], output := ["state_init:0"], attrs := [] },
              { name := "ta_init",
                op_type := "TensorArrayV3",
                inputs := [],
                output := ["ta_init:0"],
                attrs := [("tensor_array_name", CustomRnn.AttrValue.str "rnn/dynamic_rnn/output_0")] },
              { name := "exit_state",
                op_type := "Exit",
                inputs := ["sw_state:0"],
                output := ["exit_state:0"],
                attrs := [] },
              { name := "exit_scan", op_type := "Exit", inputs := ["sw_scan:0"], output := ["exit_scan:0"], attrs := [] },
              { name := "consumer",
                op_type := "Add",
                inputs := ["exit_state:0", "exit_scan:0"],
                output := ["consumer:0"],
                attrs := [] },
              { name := "Shape__0",
                op_type := "Shape",
                inputs := ["state_init:0"],
                output := ["Shape__0:0"],
                attrs := [] },
              { name := "input_target_shape__1",
                op_type := "Const",
                inputs := [],
                output := ["input_target_shape__1:0"],
                attrs := [("value", CustomRnn.AttrValue.ints [1, 4])] },
              { name := "input/Reshape__2",
                op_type := "Reshape",
                inputs := ["state_init:0", "input_target_shape__1:0"],
                output := ["input/Reshape__2:0"],
                attrs := [] }],
    shapes := [("input/Reshape__2:0", [1, 4]), ("state_init:0", [4]), ("ta_init:0", [4])],
    dtypes := [("input/Reshape__2:0", 1), ("state_init:0", 1), ("ta_init:0", 1)],
    bodies := [],
    counter := 3,
    failing_ops := ["Scan"] }

/-- Intermediate literal value of the staged end-to-end evaluation. -/
def e2eG2F : Graph :=
  { nodes := [{ name := "rnn/time", op_type := "Const", inputs := [], output := ["rnn/time:0"], attrs := [] },
              { name := "state_init", op_type := "Const", inputs := [], output := ["state_init:0"], attrs := [] },
              { name := "ta_init",
                op_type := "TensorArrayV3",
                inputs := [],
                output := ["ta_init:0"],
                attrs := [("tensor_array_name", CustomRnn.AttrValue.str "rnn/dynamic_rnn/output_0")] },
              { name := "exit_state",
                op_type := "Exit",
                inputs := ["sw_state:0"],
                output := ["exit_state:0"],
                attrs := [] },
              { name := "exit_scan", op_type := "Exit", inputs := ["sw_scan:0"], output := ["exit_scan:0"], attrs := [] },
              { name := "consumer",
                op_type := "Add",
                inputs := ["exit_state:0", "exit_scan:0"],
                output := ["consumer:0"],
                attrs := [] },
              { name := "Shape__0",
                op_type := "Shape",
                inputs := ["state_init:0"],
                output := ["Shape__0:0"],
                attrs := [] },
              { name := "input_target_shape__1",
                op_type := "Const",
                inputs := [],
                output := ["input_target_shape__1:0"],
                attrs := [("value", CustomRnn.AttrValue.ints [1, 4])] },
              { name := "input/Reshape__2",
                op_type := "Reshape",
                inputs := ["state_init:0", "input_target_shape__1:0"],
                output := ["input/Reshape__2:0"],
                attrs := [] },
              { name := "Shape__3", op_type := "Shape", inputs := ["ta_init:0"], output := ["Shape__3:0"], attrs := [] },
              { name := "input_target_shape__4",
                op_type := "Const",
                inputs := [],
                output := ["input_target_shape__4:0"],
                attrs := [("value", CustomRnn.AttrValue.ints [1, 4])] },
              { name := "input/Reshape__5",
                op_type := "Reshape",
                inputs := ["ta_init:0", "input_target_shape__4:0"],
                output := ["input/Reshape__5:0"],
                attrs := [] }],
    shapes := [("input/Reshape__5:0", [1, 4]), ("input/Reshape__2:0", [1, 4]), ("state_init:0", [4]), ("ta_init:0", [4])],
    dtypes := [("input/Reshape__5:0", 1), ("input/Reshape__2:0", 1), ("state_init:0", 1), ("ta_init:0", 1)],
    bodies := [],
    counter := 6,
    failing_ops := ["Scan"] }

/-- Intermediate literal value of the staged end-to-end evaluation. -/
def e2eG3F : Graph :=
  { nodes := [{ name := "rnn/time", op_type := "Const", inputs := [], output := ["rnn/time:0"], attrs := [] },
              { name := "state_init", op_type := "Const", inputs := [], output := ["state_init:0"], attrs := [] },
              { name := "ta_init",
                op_type := "TensorArrayV3",
                inputs := [],
                output := ["ta_init:0"],
                attrs := [("tensor_array_name", CustomRnn.AttrValue.str "rnn/dynamic_rnn/output_0")] },
              { name := "consumer",
                op_type := "Add",
                inputs := ["exit_state:0", "exit_scan:0"],
                output := ["consumer:0"],
                attrs := [] },
              { name := "Shape__0",
                op_type := "Shape",
                inputs := ["state_init:0"],
                output := ["Shape__0:0"],
                attrs := [] },
              { name := "input_target_shape__1",
                op_type := "Const",
                inputs := [],
                output := ["input_target_shape__1:0"],
                attrs := [("value", CustomRnn.AttrValue.ints [1, 4])] },
              { name := "input/Reshape__2",
                op_type := "Reshape",
                inputs := ["state_init:0", "input_target_shape__1:0"],
                output := ["input/Reshape__2:0"],
                attrs := [] },
              { name := "Shape__3", op_type := "Shape", inputs := ["ta_init:0"], output := ["Shape__3:0"], attrs := [] },
              { name := "input_target_shape__4",
                op_type := "Const",
                inputs := [],
                output := ["input_target_shape__4:0"],
                attrs := [("value", CustomRnn.AttrValue.ints [1, 4])] },
              { name := "input/Reshape__5",
                op_type := "Reshape",
                inputs := ["ta_init:0", "input_target_shape__4:0"],
                output := ["input/Reshape__5:0"],
                attrs := [] }],
    shapes := [("input/Reshape__5:0", [1, 4]), ("input/Reshape__2:0", [1, 4]), ("state_init:0", [4]), ("ta_init:0", [4])],
    dtypes := [("input/Reshape__5:0", 1), ("input/Reshape__2:0", 1), ("state_init:0", 1), ("ta_init:0", 1)],
    bodies := [],
    counter := 6,
    failing_ops := ["Scan"] }

/-- Characterization of one classification step on a variable that cannot
raise: the step succeeds, and each component of the accumulator evolves
according to the variable's class. -/
theorem parse_step_char (g : Graph) (tn iname pfx : String)
    (acc : Bool × Option Bool × Context) (v : LoopVar) (h : var_ok g v = true) :
    ∃ ft r c, parse_step g tn iname pfx acc v = Except.ok (ft, r, c) ∧
      (bad_ta_var g pfx v = true → r = some false) ∧
      (bad_ta_var g pfx v = false → r = acc.2.1) ∧
      (time_var_match g tn v = true → ft = true) ∧
      (time_var_match g tn v = false → ft = acc.1) ∧
      (iter_var_match g tn iname v = true → c.iteration_var = some v) ∧
      (iter_var_match g tn iname v = false → c.iteration_var = acc.2.2.iteration_var) ∧
      (time_var_match g tn v = true → c.time_var = some v) ∧
      (time_var_match g tn v = false → c.time_var = acc.2.2.time_var) ∧
      c.loop_properties = acc.2.2.loop_properties := by
  cases hn : g.get_node_by_output v.enter_input_id with
  | none => simp [var_ok, hn] at h
  | some n =>
    cases hta : v.is_tensor_array with
    | true =>
      have hat : (n.get_attr_s "tensor_array_name").isSome = true := by
        simpa [var_ok, hn, hta] using h
      cases hat2 : n.get_attr_s "tensor_array_name" with
      | none => rw [hat2] at hat; simp at hat
      | some s =>
        cases hsw : str_starts_with s pfx with
        | true =>
          refine ⟨acc.1, acc.2.1, acc.2.2, ?_, ?_, ?_, ?_, ?_, ?_, ?_, ?_, ?_, rfl⟩ <;>
            simp [parse_step, bad_ta_var, time_var_match, iter_var_match, hn, hta, hat2, hsw]
        | false =>
          refine ⟨acc.1, some false, acc.2.2, ?_, ?_, ?_, ?_, ?_, ?_, ?_, ?_, ?_, rfl⟩ <;>
            simp [parse_step, bad_ta_var, time_var_match, iter_var_match, hn, hta, hat2, hsw]
    | false =>
      by_cases htn : n.name = tn
      · refine ⟨true, acc.2.1, { acc.2.2 with time_var := some v },
          ?_, ?_, ?_, ?_, ?_, ?_, ?_, ?_, ?_, rfl⟩ <;>
          simp [parse_step, bad_ta_var, time_var_match, iter_var_match, hn, hta, htn]
      · by_cases hin : n.name = iname
        · have htn2 : ¬iname = tn := fun hh => htn (hin.trans hh)
          refine ⟨acc.1, acc.2.1, { acc.2.2 with iteration_var := some v },
            ?_, ?_, ?_, ?_, ?_, ?_, ?_, ?_, ?_, rfl⟩ <;>
            simp [parse_step, bad_ta_var, time_var_match, iter_var_match, hn, hta, htn, hin, htn2]
        · refine ⟨acc.1, acc.2.1, acc.2.2, ?_, ?_, ?_, ?_, ?_, ?_, ?_, ?_, ?_, rfl⟩ <;>
            simp [parse_step, bad_ta_var, time_var_match, iter_var_match, hn, hta, htn, hin]

/-- Characterization of the whole classification fold on a variable list whose
every entry can be classified without raising. -/
theorem parse_vars_char (g : Graph) (tn iname pfx : String) :
    ∀ (vars : List LoopVar) (acc : Bool × Option Bool × Context),
    vars.all (var_ok g) = true →
    ∃ ft r c, parse_vars g tn iname pfx vars acc = Except.ok (ft, r, c) ∧
      ft = (acc.1 || vars.any (time_var_match g tn)) ∧
      (vars.all (fun v => !bad_ta_var g pfx v) = true → r = acc.2.1) ∧
      (acc.2.1 = some false → r = some false) ∧
      (vars.any (bad_ta_var g pfx) = true → r = some false) ∧
      (vars.all (fun v => !iter_var_match g tn iname v) = true →
        c.iteration_var = acc.2.2.iteration_var) ∧
      (vars.any (iter_var_match g tn iname) = true →
        ∃ w, w ∈ vars ∧ iter_var_match g tn iname w = true ∧ c.iteration_var = some w) ∧
      (acc.2.2.time_var.isSome = true → c.time_var.isSome = true) ∧
      (vars.any (time_var_match g tn) = true → c.time_var.isSome = true) ∧
      c.loop_properties = acc.2.2.loop_properties := by
  intro vars
  induction vars with
  | nil =>
    intro acc _
    exact ⟨acc.1, acc.2.1, acc.2.2, rfl, by simp, fun _ => rfl, fun h => h,
      by simp, fun _ => rfl, by simp, fun h => h, by simp, rfl⟩
  | cons v rest ih =>
    intro acc hall
    have hv : var_ok g v = true := by
      have := List.all_eq_true.mp hall v (List.mem_cons_self v rest)
      exact this
    have hrest : rest.all (var_ok g) = true := by
      refine List.all_eq_true.mpr ?_
      intro x hx
      exact List.all_eq_true.mp hall x (List.mem_cons_of_mem v hx)
    obtain ⟨ft1, r1, c1, hstep, hb1, hb2, ht1, ht2, hi1, hi2, htv1, htv2, hlp1⟩ :=
      parse_step_char g tn iname pfx acc v hv
    obtain ⟨ft, r, c, hrec, AF, A3, A4, A5, A6, A7, A8, A9, A10⟩ :=
      ih (ft1, r1, c1) hrest
    refine ⟨ft, r, c, ?_, ?_, ?_, ?_, ?_, ?_, ?_, ?_, ?_, ?_⟩
    · simp [parse_vars, hstep, hrec]
    · cases htm : time_var_match g tn v with
      | true => rw [AF, ht1 htm]; simp [List.any_cons, htm]
      | false => rw [AF, ht2 htm]; simp [List.any_cons, htm]
    · intro h
      have hvb : bad_ta_var g pfx v = false := by
        have := List.all_eq_true.mp h v (List.mem_cons_self v rest)
        simpa using this
      have hrb : rest.all (fun w => !bad_ta_var g pfx w) = true := by
        refine List.all_eq_true.mpr ?_
        intro x hx
        exact List.all_eq_true.mp h x (List.mem_cons_of_mem v hx)
      rw [A3 hrb]
      exact hb2 hvb
    · intro h
      refine A4 ?_
      cases hvb : bad_ta_var g pfx v with
      | true => exact hb1 hvb
      | false => rw [hb2 hvb]; exact h
    · intro h
      cases hvb : bad_ta_var g pfx v with
      | true => exact A4 (hb1 hvb)
      | false =>
        have : rest.any (bad_ta_var g pfx) = true := by
          simpa [List.any_cons, hvb] using h
        exact A5 this
    · intro h
      have hvi : iter_var_match g tn iname v = false := by
        have := List.all_eq_true.mp h v (List.mem_cons_self v rest)
        simpa using this
      have hri : rest.all (fun w => !iter_var_match g tn iname w) = true := by
        refine List.all_eq_true.mpr ?_
        intro x hx
        exact List.all_eq_true.mp h x (List.mem_cons_of_mem v hx)
      rw [A6 hri]
      exact hi2 hvi
    · intro h
      cases hra : rest.any (iter_var_match g tn iname) with
      | true =>
        obtain ⟨w, hw1, hw2, hw3⟩ := A7 hra
        exact ⟨w, List.mem_cons_of_mem v hw1, hw2, hw3⟩
      | false =>
        have hvi : iter_var_match g tn iname v = true := by
          simpa [List.any_cons, hra] using h
        have hri : rest.all (fun w => !iter_var_match g tn iname w) = true := by
          refine List.all_eq_true.mpr ?_
          intro x hx
          have := List.any_eq_false.mp (by simpa using hra) x hx
          simpa using this
        refine ⟨v, List.mem_cons_self v rest, hvi, ?_⟩
        rw [A6 hri]
        exact hi1 hvi
    · intro h
      refine A8 ?_
      cases htm : time_var_match g tn v with
      | true => simp [htv1 htm]
      | false => rw [htv2 htm]; exact h
    · intro h
      cases htm : time_var_match g tn v with
      | true => exact A8 (by simp [htv1 htm])
      | false =>
        have : rest.any (time_var_match g tn) = true := by
          simpa [List.any_cons, htm] using h
        exact A9 this
    · rw [A10]
      exact hlp1

/-- C3: for every loop region whose derived scope is `S` and whose loop-carried
variables include at least one sequence-accumulator variable whose declared
tensor-array name does not start with `S + "dynamic_rnn/output_"`,
`need_rewrite` returns `false` — an `Except.ok` non-match, not a raised
failure. -/
theorem need_rewrite_false_of_nonconforming_accumulator (ctx : Context) (g : Graph)
    (hok : ctx.loop_properties.all_variables.all (var_ok g) = true)
    (hbad : ctx.loop_properties.all_variables.any
      (bad_ta_var g (_get_rnn_scope_name ctx.while_context_scope ++ "dynamic_rnn/output_"))
      = true) :
    ∃ c, need_rewrite ctx g = Except.ok (false, c) := by
  obtain ⟨ft, r, c, hp, AF, A3, A4, A5, A6, A7, A8, A9, A10⟩ :=
    parse_vars_char g (_get_rnn_scope_name ctx.while_context_scope ++ "time")
      (ctx.while_context_scope ++ "iteration_counter")
      (_get_rnn_scope_name ctx.while_context_scope ++ "dynamic_rnn/output_")
      ctx.loop_properties.all_variables
      (false, none, { ctx with rnn_scope := _get_rnn_scope_name ctx.while_context_scope }) hok
  have hr : r = some false := A5 hbad
  refine ⟨c, ?_⟩
  simp only [need_rewrite, _parse_rnn_loop]
  rw [hp]
  simp [hr]

/-- C2 (amended): for every loop region whose loop-carried variables include a
step counter, whose sequence-accumulator variables all carry conforming
tensor-array names (at least one of them conforming, per the claim), and which
has at least one tensor-array input, `need_rewrite` returns `true`. -/
theorem need_rewrite_true_of_conforming_loop (ctx : Context) (g : Graph)
    (hok : ctx.loop_properties.all_variables.all (var_ok g) = true)
    (htime : ctx.loop_properties.all_variables.any
      (time_var_match g (_get_rnn_scope_name ctx.while_context_scope ++ "time")) = true)
    (_hgood : ctx.loop_properties.all_variables.any
      (good_ta_var g (_get_rnn_scope_name ctx.while_context_scope ++ "dynamic_rnn/output_"))
      = true)
    (hnobad : ctx.loop_properties.all_variables.all
      (fun v => !bad_ta_var g
        (_get_rnn_scope_name ctx.while_context_scope ++ "dynamic_rnn/output_") v) = true)
    (htai : ctx.loop_properties.tensor_array_inputs ≠ []) :
    ∃ c, need_rewrite ctx g = Except.ok (true, c) := by
  obtain ⟨ft, r, c, hp, AF, A3, A4, A5, A6, A7, A8, A9, A10⟩ :=
    parse_vars_char g (_get_rnn_scope_name ctx.while_context_scope ++ "time")
      (ctx.while_context_scope ++ "iteration_counter")
      (_get_rnn_scope_name ctx.while_context_scope ++ "dynamic_rnn/output_")
      ctx.loop_properties.all_variables
      (false, none, { ctx with rnn_scope := _get_rnn_scope_name ctx.while_context_scope }) hok
  have hft : ft = true := by rw [AF]; simp [htime]
  have hr : r = none := A3 hnobad
  obtain ⟨tv, htv2⟩ := Option.isSome_iff_exists.mp (A9 htime)
  have htai2 : ¬c.loop_properties.tensor_array_inputs = [] := by
    rw [A10]; exact htai
  refine ⟨c, ?_⟩
  simp only [need_rewrite, _parse_rnn_loop]
  rw [hp]
  simp [hft, hr, _parse_time_var, htv2, htai2]

/-- C8 (amended): a non-accumulator variable whose enter input node is named
exactly the while-loop's own context scope followed by `iteration_counter` is
recorded as the context's `iteration_var` during classification, and the
absence of any such variable does not by itself make `need_rewrite` return
false. -/
theorem iteration_counter_while_scope_recorded :
    (∀ (ctx : Context) (g : Graph),
      ctx.loop_properties.all_variables.all (var_ok g) = true →
      ctx.loop_properties.all_variables.any
        (iter_var_match g (_get_rnn_scope_name ctx.while_context_scope ++ "time")
          (ctx.while_context_scope ++ "iteration_counter")) = true →
      ∃ w b c, need_rewrite ctx g = Except.ok (b, c) ∧
        w ∈ ctx.loop_properties.all_variables ∧
        iter_var_match g (_get_rnn_scope_name ctx.while_context_scope ++ "time")
          (ctx.while_context_scope ++ "iteration_counter") w = true ∧
        c.iteration_var = some w) ∧
    (∀ (ctx : Context) (g : Graph),
      ctx.iteration_var = none →
      ctx.loop_properties.all_variables.all (var_ok g) = true →
      ctx.loop_properties.all_variables.any
        (time_var_match g (_get_rnn_scope_name ctx.while_context_scope ++ "time")) = true →
      ctx.loop_properties.all_variables.all
        (fun v => !bad_ta_var g
          (_get_rnn_scope_name ctx.while_context_scope ++ "dynamic_rnn/output_") v) = true →
      ctx.loop_properties.all_variables.all
        (fun v => !iter_var_match g (_get_rnn_scope_name ctx.while_context_scope ++ "time")
          (ctx.while_context_scope ++ "iteration_counter") v) = true →
      ctx.loop_properties.tensor_array_inputs ≠ [] →
      ∃ c, need_rewrite ctx g = Except.ok (true, c) ∧ c.iteration_var = none) := by
  constructor
  · intro ctx g hok hiter
    obtain ⟨ft, r, c, hp, AF, A3, A4, A5, A6, A7, A8, A9, A10⟩ :=
      parse_vars_char g (_get_rnn_scope_name ctx.while_context_scope ++ "time")
        (ctx.while_context_scope ++ "iteration_counter")
        (_get_rnn_scope_name ctx.while_context_scope ++ "dynamic_rnn/output_")
        ctx.loop_properties.all_variables
        (false, none, { ctx with rnn_scope := _get_rnn_scope_name ctx.while_context_scope }) hok
    obtain ⟨w, hw1, hw2, hw3⟩ := A7 hiter
    by_cases hcond : ft = false ∨ r = some false
    · refine ⟨w, false, c, ?_, hw1, hw2, hw3⟩
      simp only [need_rewrite, _parse_rnn_loop]
      rw [hp]
      rcases hcond with h | h
      · simp [h]
      · simp [h]
    · have hft : ft = true := by
        cases hft2 : ft with
        | false => exact absurd hft2 (not_or.mp hcond).1
        | true => rfl
      have hanytime : ctx.loop_properties.all_variables.any
          (time_var_match g (_get_rnn_scope_name ctx.while_context_scope ++ "time")) = true := by
        rw [AF] at hft
        simpa using hft
      obtain ⟨tv, htv2⟩ := Option.isSome_iff_exists.mp (A9 hanytime)
      have hrr := (not_or.mp hcond).2
      by_cases htai : c.loop_properties.tensor_array_inputs = []
      · refine ⟨w, false, c, ?_, hw1, hw2, hw3⟩
        simp only [need_rewrite, _parse_rnn_loop]
        rw [hp]
        simp [hft, hrr, _parse_time_var, htv2, htai]
      · refine ⟨w, true, c, ?_, hw1, hw2, hw3⟩
        simp only [need_rewrite, _parse_rnn_loop]
        rw [hp]
        simp [hft, hrr, _parse_time_var, htv2, htai]
  · intro ctx g hinone hok htime hnobad hnoiter htai
    obtain ⟨ft, r, c, hp, AF, A3, A4, A5, A6, A7, A8, A9, A10⟩ :=
      parse_vars_char g (_get_rnn_scope_name ctx.while_context_scope ++ "time")
        (ctx.while_context_scope ++ "iteration_counter")
        (_get_rnn_scope_name ctx.while_context_scope ++ "dynamic_rnn/output_")
        ctx.loop_properties.all_variables
        (false, none, { ctx with rnn_scope := _get_rnn_scope_name ctx.while_context_scope }) hok
    have hft : ft = true := by rw [AF]; simp [htime]
    have hr : r = none := A3 hnobad
    obtain ⟨tv, htv2⟩ := Option.isSome_iff_exists.mp (A9 htime)
    have htai2 : ¬c.loop_properties.tensor_array_inputs = [] := by
      rw [A10]; exact htai
    have hci : c.iteration_var = none := by
      rw [A6 hnoiter]; exact hinone
    refine ⟨c, ?_, hci⟩
    simp only [need_rewrite, _parse_rnn_loop]
    rw [hp]
    simp [hft, hr, _parse_time_var, htv2, htai2]

/-- C4: the public `rewrite` contract has exactly two outcomes, OK and FAIL; no
exception escapes — any fault raised while rewriting is caught and converted to
the FAIL result. -/
theorem rewrite_only_ok_or_fail (ctx : Context) (g : Graph) :
    (rewrite ctx g).1 = Except.ok REWRITER_RESULT.OK ∨
    (rewrite ctx g).1 = Except.ok REWRITER_RESULT.FAIL := by
  cases h : rewrite_body ctx g with
  | mk e g2 =>
    cases e with
    | ok r =>
      cases r with
      | OK => exact Or.inl (by simp [rewrite, h])
      | FAIL => exact Or.inr (by simp [rewrite, h])
    | error s => exact Or.inr (by simp [rewrite, h])

/-- C2 counterexample: the mixed-accumulator region has a step counter, a
conforming sequence-accumulator input and a non-empty tensor-array input list —
all premises of the claim — yet `need_rewrite` returns false, because a second
accumulator variable carries a non-conforming name. -/
theorem need_rewrite_mixed_prefix_counterexample :
    c2TimeVar ∈ c2Ctx.loop_properties.all_variables ∧
    time_var_match c2Graph
      (_get_rnn_scope_name c2Ctx.while_context_scope ++ "time") c2TimeVar = true ∧
    c2GoodVar ∈ c2Ctx.loop_properties.all_variables ∧
    good_ta_var c2Graph
      (_get_rnn_scope_name c2Ctx.while_context_scope ++ "dynamic_rnn/output_") c2GoodVar
      = true ∧
    c2Ctx.loop_properties.tensor_array_inputs ≠ [] ∧
    (need_rewrite c2Ctx c2Graph).map Prod.fst = Except.ok false := by
  decide

/-- Witness for the C3 theorem at the mixed-accumulator region. -/
theorem need_rewrite_false_of_nonconforming_accumulator_witness :
    c2Ctx.loop_properties.all_variables.all (var_ok c2Graph) = true ∧
    c2Ctx.loop_properties.all_variables.any
      (bad_ta_var c2Graph
        (_get_rnn_scope_name c2Ctx.while_context_scope ++ "dynamic_rnn/output_")) = true ∧
    ∃ c, need_rewrite c2Ctx c2Graph = Except.ok (false, c) :=
  ⟨by decide, by decide,
    need_rewrite_false_of_nonconforming_accumulator c2Ctx c2Graph (by decide) (by decide)⟩

/-- Witness for the C2 theorem at the end-to-end region. -/
theorem need_rewrite_true_of_conforming_loop_witness :
    e2eCtx.loop_properties.all_variables.all (var_ok e2eGraph) = true ∧
    e2eCtx.loop_properties.all_variables.any
      (time_var_match e2eGraph
        (_get_rnn_scope_name e2eCtx.while_context_scope ++ "time")) = true ∧
    e2eCtx.loop_properties.all_variables.any
      (good_ta_var e2eGraph
        (_get_rnn_scope_name e2eCtx.while_context_scope ++ "dynamic_rnn/output_")) = true ∧
    e2eCtx.loop_properties.all_variables.all
      (fun v => !bad_ta_var e2eGraph
        (_get_rnn_scope_name e2eCtx.while_context_scope ++ "dynamic_rnn/output_") v) = true ∧
    e2eCtx.loop_properties.tensor_array_inputs ≠ [] ∧
    ∃ c, need_rewrite e2eCtx e2eGraph = Except.ok (true, c) :=
  ⟨by decide, by decide, by decide, by decide, by decide,
    need_rewrite_true_of_conforming_loop e2eCtx e2eGraph
      (by decide) (by decide) (by decide) (by decide) (by decide)⟩

/-- C8 counterexample: a non-accumulator variable whose enter input node is
named exactly derived-scope + `iteration_counter` is NOT recorded as the
context's `iteration_var` (the source compares against the while-loop's own
scope, not the derived scope). -/
theorem iteration_counter_derived_scope_counterexample :
    c8Var ∈ c8Ctx.loop_properties.all_variables ∧
    c8Var.is_tensor_array = false ∧
    (c8Graph.get_node_by_output c8Var.enter_input_id).map Node.name =
      some (_get_rnn_scope_name c8Ctx.while_context_scope ++ "iteration_counter") ∧
    (need_rewrite c8Ctx c8Graph).map (fun p => p.2.iteration_var) = Except.ok none := by
  decide

/-- Witness for the C8 theorem: the while-scope-named counter is recorded, and
the region without any such counter still rewrites. -/
theorem iteration_counter_while_scope_recorded_witness :
    (∃ w b c, need_rewrite c8wCtx c8wGraph = Except.ok (b, c) ∧
      w ∈ c8wCtx.loop_properties.all_variables ∧
      iter_var_match c8wGraph (_get_rnn_scope_name c8wCtx.while_context_scope ++ "time")
        (c8wCtx.while_context_scope ++ "iteration_counter") w = true ∧
      c.iteration_var = some w) ∧
    (∃ c, need_rewrite e2eCtx e2eGraph = Except.ok (true, c) ∧ c.iteration_var = none) :=
  ⟨iteration_counter_while_scope_recorded.1 c8wCtx c8wGraph (by decide) (by decide),
   iteration_counter_while_scope_recorded.2 e2eCtx e2eGraph
     (by decide) (by decide) (by decide) (by decide) (by decide) (by decide)⟩

/-- Literal evaluation of `toString` on the counter values reached by the
end-to-end computations. -/
@[simp] theorem natstr0 : (toString (0 : Nat)) = "0" := rfl

/-- Literal evaluation of `toString 1`. -/
@[simp] theorem natstr1 : (toString (1 : Nat)) = "1" := rfl

/-- Literal evaluation of `toString 2`. -/
@[simp] theorem natstr2 : (toString (2 : Nat)) = "2" := rfl

/-- Literal evaluation of `toString 3`. -/
@[simp] theorem natstr3 : (toString (3 : Nat)) = "3" := rfl

/-- Literal evaluation of `toString 4`. -/
@[simp] theorem natstr4 : (toString (4 : Nat)) = "4" := rfl

/-- Literal evaluation of `toString 5`. -/
@[simp] theorem natstr5 : (toString (5 : Nat)) = "5" := rfl

/-- Literal evaluation of `toString 6`. -/
@[simp] theorem natstr6 : (toString (6 : Nat)) = "6" := rfl

/-- Literal evaluation of `toString 7`. -/
@[simp] theorem natstr7 : (toString (7 : Nat)) = "7" := rfl

/-- Literal evaluation of `toString 8`. -/
@[simp] theorem natstr8 : (toString (8 : Nat)) = "8" := rfl

/-- Literal evaluation of `toString 9`. -/
@[simp] theorem natstr9 : (toString (9 : Nat)) = "9" := rfl

/-- Literal evaluation of `toString 10`. -/
@[simp] theorem natstr10 : (toString (10 : Nat)) = "10" := rfl

/-- Literal evaluation of `toString 11`. -/
@[simp] theorem natstr11 : (toString (11 : Nat)) = "11" := rfl

/-- Literal evaluation of `toString 12`. -/
@[simp] theorem natstr12 : (toString (12 : Nat)) = "12" := rfl

/-- Literal evaluation of `toString 13`. -/
@[simp] theorem natstr13 : (toString (13 : Nat)) = "13" := rfl

/-- Literal evaluation of `toString 14`. -/
@[simp] theorem natstr14 : (toString (14 : Nat)) = "14" := rfl

/-- Stage 1 of the end-to-end evaluation: adapting the state initial value. -/
theorem e2e_stage1 : adapt_all "input" ["state_init:0"] e2eGraph =
    (Except.ok ["input/Reshape__2:0"], e2eG1) := by
  simp [rewrite, rewrite_body, adapt_all, _adapt_scan_sequence_input_or_output,
    adapt_in_mid, adapt_out_mid, adapt_in_dyn, adapt_out_dyn, M.bind, M.pure, M.get,
    M.modify, M.throw, make_node, make_name, make_const, out0, last_output, node_out,
    mk_node, gen_name, gen_out, record_shapes, record_dtypes, _create_scan_node,
    collect_scan_outputs, connect_exits, _connect_scan_with_output,
    construct_graph_from_nodes, SubGraph.add_graph_input, Graph.get_shape,
    Graph.get_dtype, Graph.get_node_by_output, Graph.remove_node,
    Graph.replace_all_inputs, Graph.set_body, Graph.get_body, Node.get_attr_s,
    List.range_succ, List.lookup, List.find?, List.filter, List.count, List.countP,
    List.countP.go, List.getLast?, List.getLast,
    e2eGraph, e2eTimeInitNode, e2eStateInitNode, e2eTaInitNode, e2eExitStateNode,
    e2eExitScanNode, e2eConsumerNode, e2eG1]

/-- Stage 2 of the end-to-end evaluation: adapting the accumulator initial
value. -/
theorem e2e_stage2 : adapt_all "input" ["ta_init:0"] e2eG1 =
    (Except.ok ["input/Reshape__5:0"], e2eG2) := by
  simp [rewrite, rewrite_body, adapt_all, _adapt_scan_sequence_input_or_output,
    adapt_in_mid, adapt_out_mid, adapt_in_dyn, adapt_out_dyn, M.bind, M.pure, M.get,
    M.modify, M.throw, make_node, make_name, make_const, out0, last_output, node_out,
    mk_node, gen_name, gen_out, record_shapes, record_dtypes, _create_scan_node,
    collect_scan_outputs, connect_exits, _connect_scan_with_output,
    construct_graph_from_nodes, SubGraph.add_graph_input, Graph.get_shape,
    Graph.get_dtype, Graph.get_node_by_output, Graph.remove_node,
    Graph.replace_all_inputs, Graph.set_body, Graph.get_body, Node.get_attr_s,
    List.range_succ, List.lookup, List.find?, List.filter, List.count, List.countP,
    List.countP.go, List.getLast?, List.getLast, e2eG1, e2eG2]

/-- Stage 3 of the end-to-end evaluation: the scan node is created and both
exit nodes are removed. -/
theorem e2e_stage3 : _create_scan_node e2eCtx.loop_properties
    ["input/Reshape__2:0", "input/Reshape__5:0"] e2eG2 =
    (Except.ok e2eScanNode, e2eG3) := by
  simp [rewrite, rewrite_body, adapt_all, _adapt_scan_sequence_input_or_output,
    adapt_in_mid, adapt_out_mid, adapt_in_dyn, adapt_out_dyn, M.bind, M.pure, M.get,
    M.modify, M.throw, make_node, make_name, make_const, out0, last_output, node_out,
    mk_node, gen_name, gen_out, record_shapes, record_dtypes, _create_scan_node,
    collect_scan_outputs, connect_exits, _connect_scan_with_output,
    construct_graph_from_nodes, SubGraph.add_graph_input, Graph.get_shape,
    Graph.get_dtype, Graph.get_node_by_output, Graph.remove_node,
    Graph.replace_all_inputs, Graph.set_body, Graph.get_body, Node.get_attr_s,
    List.range_succ, List.lookup, List.find?, List.filter, List.count, List.countP,
    List.countP.go, List.getLast?, List.getLast, e2eCtx, e2eProps, e2eG2, e2eScanNode, e2eG3]

/-- Stage 4 of the end-to-end evaluation: attaching the body subgraph. -/
theorem e2e_stage4 : Graph.set_body e2eG3 "custom_rnn_scan/Scan__6"
    ⟨[], ["cell/state_out:0", "cell/x_out:0"],
     [("cell/state_in:0", 1, some [4]), ("cell/x_in:0", 1, some [4])]⟩ = e2eG4 := by
  simp [Graph.set_body, e2eG3, e2eG4]

/-- Stage 5 of the end-to-end evaluation: reconnecting the state exit. -/
theorem e2e_stage5 : connect_exits "state_output_reshape" e2eScanNode
    [⟨"exit_state:0", some [4], 1⟩] 0 e2eG4 = (Except.ok 1, e2eG5) := by
  simp [rewrite, rewrite_body, adapt_all, _adapt_scan_sequence_input_or_output,
    adapt_in_mid, adapt_out_mid, adapt_in_dyn, adapt_out_dyn, M.bind, M.pure, M.get,
    M.modify, M.throw, make_node, make_name, make_const, out0, last_output, node_out,
    mk_node, gen_name, gen_out, record_shapes, record_dtypes, _create_scan_node,
    collect_scan_outputs, connect_exits, _connect_scan_with_output,
    construct_graph_from_nodes, SubGraph.add_graph_input, Graph.get_shape,
    Graph.get_dtype, Graph.get_node_by_output, Graph.remove_node,
    Graph.replace_all_inputs, Graph.set_body, Graph.get_body, Node.get_attr_s,
    List.range_succ, List.lookup, List.find?, List.filter, List.count, List.countP,
    List.countP.go, List.getLast?, List.getLast, e2eScanNode, e2eG4, e2eG5]

/-- Stage 6 of the end-to-end evaluation: reconnecting the scan exit. -/
theorem e2e_stage6 : connect_exits "scan_output_reshape" e2eScanNode
    [⟨"exit_scan:0", some [4], 1⟩] 1 e2eG5 = (Except.ok 2, e2eG6) := by
  simp [rewrite, rewrite_body, adapt_all, _adapt_scan_sequence_input_or_output,
    adapt_in_mid, adapt_out_mid, adapt_in_dyn, adapt_out_dyn, M.bind, M.pure, M.get,
    M.modify, M.throw, make_node, make_name, make_const, out0, last_output, node_out,
    mk_node, gen_name, gen_out, record_shapes, record_dtypes, _create_scan_node,
    collect_scan_outputs, connect_exits, _connect_scan_with_output,
    construct_graph_from_nodes, SubGraph.add_graph_input, Graph.get_shape,
    Graph.get_dtype, Graph.get_node_by_output, Graph.remove_node,
    Graph.replace_all_inputs, Graph.set_body, Graph.get_body, Node.get_attr_s,
    List.range_succ, List.lookup, List.find?, List.filter, List.count, List.countP,
    List.countP.go, List.getLast?, List.getLast, e2eScanNode, e2eG5, e2eG6]

/-- The full end-to-end evaluation, assembled from the stages. -/
theorem rewrite_e2e_eval : rewrite e2eCtx e2eGraph =
    (Except.ok REWRITER_RESULT.OK, e2eG6) := by
  have h1 : e2eCtx.loop_properties.state_inputs_initial_values = ["state_init:0"] := rfl
  have h2 : e2eCtx.loop_properties.scan_inputs_initial_values = ["ta_init:0"] := rfl
  have h3 : e2eCtx.loop_properties.state_outputs_exits =
    [⟨"exit_state:0", some [4], 1⟩] := rfl
  have h4 : e2eCtx.loop_properties.scan_outputs_exits =
    [⟨"exit_scan:0", some [4], 1⟩] := rfl
  have h5 : e2eCtx.cell_graph = ⟨[], ["cell/state_out:0", "cell/x_out:0"]⟩ := rfl
  have h6 : e2eCtx.loop_properties.state_inputs = [⟨"cell/state_in:0", some [4], 1⟩] := rfl
  have h7 : e2eCtx.loop_properties.scan_inputs = [⟨"cell/x_in:0", some [4], 1⟩] := rfl
  have h8 : e2eScanNode.name = "custom_rnn_scan/Scan__6" := rfl
  simp [rewrite, rewrite_body, _connect_scan_with_output, M.bind, M.pure, M.modify,
    h1, h2, h3, h4, h5, h6, h7, h8, e2e_stage1, e2e_stage2, e2e_stage3, e2e_stage4,
    e2e_stage5, e2e_stage6, construct_graph_from_nodes, SubGraph.add_graph_input]

/-- Stage 1 of the fault-injected evaluation. -/
theorem e2e_stage1F : adapt_all "input" ["state_init:0"] e2eGraphFail =
    (Except.ok ["input/Reshape__2:0"], e2eG1F) := by
  simp [rewrite, rewrite_body, adapt_all, _adapt_scan_sequence_input_or_output,
    adapt_in_mid, adapt_out_mid, adapt_in_dyn, adapt_out_dyn, M.bind, M.pure, M.get,
    M.modify, M.throw, make_node, make_name, make_const, out0, last_output, node_out,
    mk_node, gen_name, gen_out, record_shapes, record_dtypes, _create_scan_node,
    collect_scan_outputs, connect_exits, _connect_scan_with_output,
    construct_graph_from_nodes, SubGraph.add_graph_input, Graph.get_shape,
    Graph.get_dtype, Graph.get_node_by_output, Graph.remove_node,
    Graph.replace_all_inputs, Graph.set_body, Graph.get_body, Node.get_attr_s,
    List.range_succ, List.lookup, List.find?, List.filter, List.count, List.countP,
    List.countP.go, List.getLast?, List.getLast,
    e2eGraphFail, e2eGraph, e2eTimeInitNode, e2eStateInitNode, e2eTaInitNode,
    e2eExitStateNode, e2eExitScanNode, e2eConsumerNode, e2eG1F]

/-- Stage 2 of the fault-injected evaluation. -/
theorem e2e_stage2F : adapt_all "input" ["ta_init:0"] e2eG1F =
    (Except.ok ["input/Reshape__5:0"], e2eG2F) := by
  simp [rewrite, rewrite_body, adapt_all, _adapt_scan_sequence_input_or_output,
    adapt_in_mid, adapt_out_mid, adapt_in_dyn, adapt_out_dyn, M.bind, M.pure, M.get,
    M.modify, M.throw, make_node, make_name, make_const, out0, last_output, node_out,
    mk_node, gen_name, gen_out, record_shapes, record_dtypes, _create_scan_node,
    collect_scan_outputs, connect_exits, _connect_scan_with_output,
    construct_graph_from_nodes, SubGraph.add_graph_input, Graph.get_shape,
    Graph.get_dtype, Graph.get_node_by_output, Graph.remove_node,
    Graph.replace_all_inputs, Graph.set_body, Graph.get_body, Node.get_attr_s,
    List.range_succ, List.lookup, List.find?, List.filter, List.count, List.countP,
    List.countP.go, List.getLast?, List.getLast, e2eG1F, e2eG2F]

/-- Stage 3 of the fault-injected evaluation: both exit nodes are removed, then
the `Scan` construction raises. -/
theorem e2e_stage3F : _create_scan_node e2eCtx.loop_properties
    ["input/Reshape__2:0", "input/Reshape__5:0"] e2eG2F =
    (Except.error "make_node failed for op Scan", e2eG3F) := by
  simp [rewrite, rewrite_body, adapt_all, _adapt_scan_sequence_input_or_output,
    adapt_in_mid, adapt_out_mid, adapt_in_dyn, adapt_out_dyn, M.bind, M.pure, M.get,
    M.modify, M.throw, make_node, make_name, make_const, out0, last_output, node_out,
    mk_node, gen_name, gen_out, record_shapes, record_dtypes, _create_scan_node,
    collect_scan_outputs, connect_exits, _connect_scan_with_output,
    construct_graph_from_nodes, SubGraph.add_graph_input, Graph.get_shape,
    Graph.get_dtype, Graph.get_node_by_output, Graph.remove_node,
    Graph.replace_all_inputs, Graph.set_body, Graph.get_body, Node.get_attr_s,
    List.range_succ, List.lookup, List.find?, List.filter, List.count, List.countP,
    List.countP.go, List.getLast?, List.getLast, e2eCtx, e2eProps, e2eG2F, e2eG3F]

/-- The full fault-injected evaluation, assembled from the stages. -/
theorem rewrite_e2eFail_eval : rewrite e2eCtx e2eGraphFail =
    (Except.ok REWRITER_RESULT.FAIL, e2eG3F) := by
  have h1 : e2eCtx.loop_properties.state_inputs_initial_values = ["state_init:0"] := rfl
  have h2 : e2eCtx.loop_properties.scan_inputs_initial_values = ["ta_init:0"] := rfl
  simp [rewrite, rewrite_body, M.bind, M.pure, M.modify, h1, h2,
    e2e_stage1F, e2e_stage2F, e2e_stage3F]

/-- C1: on the end-to-end region (step counter, one state variable of shape
`[4]`, one conforming accumulator pair of per-step shape `[4]`), `rewrite`
returns OK and produces exactly one `Scan` node, with `num_scan_inputs = 1`,
exactly 2 declared outputs each of declared shape `[1, 4]`, and a body graph
declaring exactly 2 inputs — the state input first and the scan input second. -/
theorem rewrite_e2e_scan_node_spec :
    (rewrite e2eCtx e2eGraph).1 = Except.ok REWRITER_RESULT.OK ∧
    ((rewrite e2eCtx e2eGraph).2.nodes.filter (fun n => n.op_type == "Scan")).length = 1 ∧
    (∀ n ∈ (rewrite e2eCtx e2eGraph).2.nodes.filter (fun n => n.op_type == "Scan"),
      n.attrs = [("num_scan_inputs", AttrValue.int 1)] ∧
      n.output.length = 2 ∧
      (∀ o ∈ n.output, (rewrite e2eCtx e2eGraph).2.get_shape o = some [1, 4]) ∧
      (rewrite e2eCtx e2eGraph).2.get_body n.name =
        some ⟨[], ["cell/state_out:0", "cell/x_out:0"],
              [("cell/state_in:0", 1, some [4]), ("cell/x_in:0", 1, some [4])]⟩) := by
  rw [rewrite_e2e_eval]
  decide

/-- C9: on the end-to-end region with an injected `Scan` construction fault,
`rewrite` returns FAIL; both original exit nodes, present in the graph before
the call, have been removed before the scan-node creation was attempted and are
not restored, and no `Scan` node exists in the resulting graph. -/
theorem rewrite_scan_failure_exits_not_restored :
    (rewrite e2eCtx e2eGraphFail).1 = Except.ok REWRITER_RESULT.FAIL ∧
    (e2eGraphFail.get_node_by_output "exit_state:0").isSome = true ∧
    (e2eGraphFail.get_node_by_output "exit_scan:0").isSome = true ∧
    (rewrite e2eCtx e2eGraphFail).2.get_node_by_output "exit_state:0" = none ∧
    (rewrite e2eCtx e2eGraphFail).2.get_node_by_output "exit_scan:0" = none ∧
    ((rewrite e2eCtx e2eGraphFail).2.nodes.filter (fun n => n.op_type == "Scan")).length
      = 0 := by
  rw [rewrite_e2eFail_eval]
  decide

/-- C6: an output-direction adaptation of a tensor whose known shape past the
leading synthetic axis has two or more unresolved dimensions takes the dynamic
path: `Shape`, `Cast` to float, a `Slice` dropping the first axis, `Cast` back
to int64, and a `Reshape` driven by that computed shape — and no constant-shape
node is produced. -/
theorem adapt_output_dynamic_shape_path (tn id : String) (g : Graph) (s : List Int)
    (hfail : g.failing_ops = [])
    (hs : g.get_shape id = some s)
    (hc : 2 ≤ (s.drop 1).count (-1)) :
    ∃ sn c1 sl c2 rn g2,
      _adapt_scan_sequence_input_or_output tn id true g =
        (Except.ok [sn, c1, sl, c2, rn], g2) ∧
      sn.op_type = "Shape" ∧ sn.inputs = [id] ∧
      c1.op_type = "Cast" ∧ c1.attrs = [("to", AttrValue.int onnx_FLOAT)] ∧
      c1.inputs = sn.output ∧
      sl.op_type = "Slice" ∧
      sl.attrs = [("axes", AttrValue.ints [0]), ("starts", AttrValue.ints [1]),
        ("ends", AttrValue.ints [sys_maxsize])] ∧
      sl.inputs = c1.output ∧
      c2.op_type = "Cast" ∧ c2.attrs = [("to", AttrValue.int onnx_INT64)] ∧
      c2.inputs = sl.output ∧
      rn.op_type = "Reshape" ∧ rn.inputs = [id, c2.output.headD ""] ∧
      (∀ n ∈ [sn, c1, sl, c2, rn], n.op_type ≠ "Const") := by
  have hs2 : List.lookup id g.shapes = some s := hs
  have hc2 : ¬List.count (-1) s.tail ≤ 1 := by
    simp only [List.drop_one] at hc
    omega
  refine ⟨?_, ?_, ?_, ?_, ?_, ?_, ?eq, ?rest⟩
  case eq =>
    conv_lhs => simp [_adapt_scan_sequence_input_or_output, adapt_out_mid, adapt_out_dyn,
      M.bind, M.pure, M.get, M.throw, make_node, make_name, make_const, out0,
      mk_node, gen_name, gen_out, record_shapes, record_dtypes,
      Graph.get_shape, Graph.get_dtype, List.range_succ, hfail, hs2, hc2]
    exact rfl
  case rest =>
    simp [mk_node, gen_name, gen_out, List.range_succ]

/-- C7 (evaluation of the code at the failing input): an input-direction
adaptation of a tensor with no known shape enters the dynamic path — creating
the `Shape` node, the constant `[1]`, and the `Concat` — and then raises a
`TypeError` at `new_shape = [1] + inferred_shape`; it does not complete with a
`Reshape`. -/
theorem adapt_input_unknown_shape_raises (tn id : String) (g : Graph)
    (hfail : g.failing_ops = [])
    (hs : g.get_shape id = none) :
    ∃ e g2 sn fb cc,
      _adapt_scan_sequence_input_or_output tn id false g = (Except.error e, g2) ∧
      g2.nodes = g.nodes ++ [sn, fb, cc] ∧
      sn.op_type = "Shape" ∧ sn.inputs = [id] ∧
      fb.op_type = "Const" ∧ fb.attrs = [("value", AttrValue.ints [1])] ∧
      cc.op_type = "Concat" ∧ cc.attrs = [("axis", AttrValue.int 0)] ∧
      cc.inputs = [fb.output.headD "", sn.output.headD ""] ∧
      (∀ n ∈ g2.nodes, n.op_type = "Reshape" → n ∈ g.nodes) := by
  have hs2 : List.lookup id g.shapes = none := hs
  refine ⟨?_, ?_, ?_, ?_, ?_, ?eq, ?nodes, ?rest⟩
  case eq =>
    conv_lhs => simp [_adapt_scan_sequence_input_or_output, adapt_in_mid, adapt_in_dyn,
      M.bind, M.pure, M.get, M.throw, make_node, make_name, make_const, out0,
      mk_node, gen_name, gen_out, record_shapes, record_dtypes,
      Graph.get_shape, Graph.get_dtype, List.range_succ, hfail, hs2]
    exact rfl
  case nodes =>
    conv_lhs => simp [Graph.set_body, List.range_succ]
    exact rfl
  case rest =>
    simp [mk_node, gen_name, gen_out, List.range_succ]
    intro n hn hop
    rcases hn with hn | rfl | rfl | rfl
    · exact hn
    all_goals simp at hop

/-- Witness for the C6 theorem at a tensor of shape `[1, -1, -1]`. -/
theorem adapt_output_dynamic_shape_path_witness :
    w6Graph.failing_ops = [] ∧ w6Graph.get_shape "y:0" = some [1, -1, -1] ∧
    2 ≤ (([1, -1, -1] : List Int).drop 1).count (-1) ∧
    ∃ sn c1 sl c2 rn g2,
      _adapt_scan_sequence_input_or_output "scan_output_reshape" "y:0" true w6Graph =
        (Except.ok [sn, c1, sl, c2, rn], g2) ∧
      sn.op_type = "Shape" ∧ sn.inputs = ["y:0"] ∧
      c1.op_type = "Cast" ∧ c1.attrs = [("to", AttrValue.int onnx_FLOAT)] ∧
      c1.inputs = sn.output ∧
      sl.op_type = "Slice" ∧
      sl.attrs = [("axes", AttrValue.ints [0]), ("starts", AttrValue.ints [1]),
        ("ends", AttrValue.ints [sys_maxsize])] ∧
      sl.inputs = c1.output ∧
      c2.op_type = "Cast" ∧ c2.attrs = [("to", AttrValue.int onnx_INT64)] ∧
      c2.inputs = sl.output ∧
      rn.op_type = "Reshape" ∧ rn.inputs = ["y:0", c2.output.headD ""] ∧
      (∀ n ∈ [sn, c1, sl, c2, rn], n.op_type ≠ "Const") :=
  ⟨by decide, by decide, by decide,
    adapt_output_dynamic_shape_path "scan_output_reshape" "y:0" w6Graph [1, -1, -1]
      (by decide) (by decide) (by decide)⟩

/-- Witness for the C7 theorem at a tensor with no known shape. -/
theorem adapt_input_unknown_shape_raises_witness :
    w7Graph.failing_ops = [] ∧ w7Graph.get_shape "z:0" = none ∧
    ∃ e g2 sn fb cc,
      _adapt_scan_sequence_input_or_output "input" "z:0" false w7Graph =
        (Except.error e, g2) ∧
      g2.nodes = w7Graph.nodes ++ [sn, fb, cc] ∧
      sn.op_type = "Shape" ∧ sn.inputs = ["z:0"] ∧
      fb.op_type = "Const" ∧ fb.attrs = [("value", AttrValue.ints [1])] ∧
      cc.op_type = "Concat" ∧ cc.attrs = [("axis", AttrValue.int 0)] ∧
      cc.inputs = [fb.output.headD "", sn.output.headD ""] ∧
      (∀ n ∈ g2.nodes, n.op_type = "Reshape" → n ∈ w7Graph.nodes) :=
  ⟨by decide, by decide,
    adapt_input_unknown_shape_raises "input" "z:0" w7Graph (by decide) (by decide)⟩

/-- C5: adapting a tensor of fully static shape `[B, T, D]` in the input
direction yields a reshape of declared shape `[1, B, T, D]`, and adapting that
result in the output direction yields a reshape of declared shape `[B, T, D]`:
the two adaptations are mutual inverses on shapes. -/
theorem adapt_sequence_shape_round_trip (tn tn2 id : String) (g : Graph) (B T D : Int)
    (hfail : g.failing_ops = [])
    (hs : g.get_shape id = some [B, T, D])
    (hB : B ≠ -1) (hT : T ≠ -1) (hD : D ≠ -1) :
    ∃ ns g2 rn o ns2 g3 rn2 o2,
      _adapt_scan_sequence_input_or_output tn id false g = (Except.ok ns, g2) ∧
      ns.getLast? = some rn ∧ rn.op_type = "Reshape" ∧ rn.output = [o] ∧
      g2.get_shape o = some [1, B, T, D] ∧
      _adapt_scan_sequence_input_or_output tn2 o true g2 = (Except.ok ns2, g3) ∧
      ns2.getLast? = some rn2 ∧ rn2.op_type = "Reshape" ∧ rn2.output = [o2] ∧
      g3.get_shape o2 = some [B, T, D] := by
  have hs2 : List.lookup id g.shapes = some [B, T, D] := hs
  have hcnt : List.count (-1 : Int) [B, T, D] = 0 := by
    simp [List.count_cons, hB, hT, hD]
  refine ⟨?_, ?_, ?_, ?_, ?_, ?_, ?_, ?_,
    ?eq1, ?last1, ?op1, ?out1, ?shape1, ?eq2, ?last2, ?op2, ?out2, ?shape2⟩
  case eq1 =>
    conv_lhs => simp [_adapt_scan_sequence_input_or_output, adapt_in_mid, adapt_in_dyn,
      M.bind, M.pure, M.get, M.throw, make_node, make_name, make_const, out0,
      mk_node, gen_name, gen_out, record_shapes, record_dtypes,
      Graph.get_shape, Graph.get_dtype, List.range_succ, hfail, hs2, hcnt]
    exact rfl
  case last1 =>
    conv_lhs => simp
    exact rfl
  case op1 => simp
  case out1 =>
    conv_lhs => simp
    exact rfl
  case shape1 =>
    simp [Graph.get_shape, List.lookup]
  case eq2 =>
    conv_lhs => simp [_adapt_scan_sequence_input_or_output, adapt_out_mid, adapt_out_dyn,
      M.bind, M.pure, M.get, M.throw, make_node, make_name, make_const, out0,
      mk_node, gen_name, gen_out, record_shapes, record_dtypes,
      Graph.get_shape, Graph.get_dtype, List.range_succ, List.lookup, hfail, hcnt]
    exact rfl
  case last2 =>
    conv_lhs => simp
    exact rfl
  case op2 => simp
  case out2 =>
    conv_lhs => simp
    exact rfl
  case shape2 =>
    simp [Graph.get_shape, List.lookup]

/-- Witness for the C5 theorem at shape `[2, 3, 4]`. -/
theorem adapt_sequence_shape_round_trip_witness :
    w5Graph.failing_ops = [] ∧ w5Graph.get_shape "x:0" = some [2, 3, 4] ∧
    (2 : Int) ≠ -1 ∧ (3 : Int) ≠ -1 ∧ (4 : Int) ≠ -1 ∧
    ∃ ns g2 rn o ns2 g3 rn2 o2,
      _adapt_scan_sequence_input_or_output "input" "x:0" false w5Graph =
        (Except.ok ns, g2) ∧
      ns.getLast? = some rn ∧ rn.op_type = "Reshape" ∧ rn.output = [o] ∧
      g2.get_shape o = some [1, 2, 3, 4] ∧
      _adapt_scan_sequence_input_or_output "state_output_reshape" o true g2 =
        (Except.ok ns2, g3) ∧
      ns2.getLast? = some rn2 ∧ rn2.op_type = "Reshape" ∧ rn2.output = [o2] ∧
      g3.get_shape o2 = some [2, 3, 4] :=
  ⟨by decide, by decide, by decide, by decide, by decide,
    adapt_sequence_shape_round_trip "input" "state_output_reshape" "x:0" w5Graph 2 3 4
      (by decide) (by decide) (by decide) (by decide) (by decide)⟩

/-- C10: every successful adapter call, in either direction and on either path,
returns a `Shape` node reading the input tensor as the first element of its
node sequence, and that node is in the mutated graph; on the constant-shape
path the final `Reshape` reads the input tensor and the constant — not the
`Shape` node's output, which is left unconsumed (given that the input id and
the generated constant id differ from the generated `Shape` output id, as the
unique-name contract guarantees). -/
theorem adapt_always_emits_shape_node (tn id : String) (ho : Bool) (g : Graph)
    (nodes : List Node) (g2 : Graph)
    (hfail : g.failing_ops = [])
    (h : _adapt_scan_sequence_input_or_output tn id ho g = (Except.ok nodes, g2)) :
    (∃ sn rest, nodes = sn :: rest ∧ sn.op_type = "Shape" ∧ sn.inputs = [id] ∧
      sn ∈ g2.nodes ∧ sn.output = [gen_out "Shape" g.counter 0]) ∧
    (∀ s, g.get_shape id = some s →
      (if ho then s.drop 1 else s).count (-1) ≤ 1 →
      id ≠ gen_out "Shape" g.counter 0 →
      gen_name (tn ++ "_target_shape") (g.counter + 1) ++ ":0" ≠
        gen_out "Shape" g.counter 0 →
      ∃ cn rn, nodes = [mk_node "Shape" "Shape" g.counter [id] [] 1, cn, rn] ∧
        cn.op_type = "Const" ∧ rn.op_type = "Reshape" ∧
        rn.inputs = [id, gen_name (tn ++ "_target_shape") (g.counter + 1) ++ ":0"] ∧
        gen_out "Shape" g.counter 0 ∉ rn.inputs) := by
  cases hshape : g.get_shape id with
  | none =>
    have hl : List.lookup id g.shapes = none := hshape
    cases ho with
    | false =>
      simp [_adapt_scan_sequence_input_or_output, adapt_in_mid, adapt_in_dyn,
        M.bind, M.pure, M.get, M.throw, make_node, make_name, make_const, out0,
        mk_node, gen_name, gen_out, record_shapes, record_dtypes,
        Graph.get_shape, Graph.get_dtype, List.range_succ, hfail, hl] at h
    | true =>
      simp [_adapt_scan_sequence_input_or_output, adapt_out_mid, adapt_out_dyn,
        M.bind, M.pure, M.get, M.throw, make_node, make_name, make_const, out0,
        mk_node, gen_name, gen_out, record_shapes, record_dtypes,
        Graph.get_shape, Graph.get_dtype, List.range_succ, hfail, hl] at h
  | some s =>
    have hl : List.lookup id g.shapes = some s := hshape
    cases ho with
    | false =>
      by_cases hcnt : List.count (-1) s ≤ 1
      · simp [_adapt_scan_sequence_input_or_output, adapt_in_mid, adapt_in_dyn,
          M.bind, M.pure, M.get, M.throw, make_node, make_name, make_const, out0,
          mk_node, gen_name, gen_out, record_shapes, record_dtypes,
          Graph.get_shape, Graph.get_dtype,
          List.range_succ, hfail, hl, hcnt] at h
        obtain ⟨hn, hg⟩ := h
        subst hn
        subst hg
        constructor
        · refine ⟨_, _, rfl, rfl, rfl, ?_, ?_⟩
          · simp [mk_node]
          · simp [mk_node, gen_name, gen_out, List.range_succ]
        · intro s' _ _ hid hco
          refine ⟨_, _, rfl, rfl, rfl, rfl, ?_⟩
          simp [mk_node, gen_name, gen_out, List.range_succ]
          exact ⟨fun hh => hid hh.symm, fun hh => hco hh.symm⟩
      · simp [_adapt_scan_sequence_input_or_output, adapt_in_mid, adapt_in_dyn,
          M.bind, M.pure, M.get, M.throw, make_node, make_name, make_const, out0,
          mk_node, gen_name, gen_out, record_shapes, record_dtypes,
          Graph.get_shape, Graph.get_dtype,
          List.range_succ, hfail, hl, hcnt] at h
        obtain ⟨hn, hg⟩ := h
        subst hn
        subst hg
        constructor
        · refine ⟨_, _, rfl, rfl, rfl, ?_, ?_⟩
          · simp [mk_node]
          · simp [mk_node, gen_name, gen_out, List.range_succ]
        · intro s' hs' hcnt' _ _
          rw [Option.some_inj] at hs'
          subst hs'
          simp at hcnt'
          exact absurd hcnt' hcnt
    | true =>
      by_cases hcnt : List.count (-1) s.tail ≤ 1
      · simp [_adapt_scan_sequence_input_or_output, adapt_out_mid, adapt_out_dyn,
          M.bind, M.pure, M.get, M.throw, make_node, make_name, make_const, out0,
          mk_node, gen_name, gen_out, record_shapes, record_dtypes,
          Graph.get_shape, Graph.get_dtype,
          List.range_succ, hfail, hl, hcnt] at h
        obtain ⟨hn, hg⟩ := h
        subst hn
        subst hg
        constructor
        · refine ⟨_, _, rfl, rfl, rfl, ?_, ?_⟩
          · simp [mk_node]
          · simp [mk_node, gen_name, gen_out, List.range_succ]
        · intro s' _ _ hid hco
          refine ⟨_, _, rfl, rfl, rfl, rfl, ?_⟩
          simp [mk_node, gen_name, gen_out, List.range_succ]
          exact ⟨fun hh => hid hh.symm, fun hh => hco hh.symm⟩
      · simp [_adapt_scan_sequence_input_or_output, adapt_out_mid, adapt_out_dyn,
          M.bind, M.pure, M.get, M.throw, make_node, make_name, make_const, out0,
          mk_node, gen_name, gen_out, record_shapes, record_dtypes,
          Graph.get_shape, Graph.get_dtype,
          List.range_succ, hfail, hl, hcnt] at h
        obtain ⟨hn, hg⟩ := h
        subst hn
        subst hg
        constructor
        · refine ⟨_, _, rfl, rfl, rfl, ?_, ?_⟩
          · simp [mk_node]
          · simp [mk_node, gen_name, gen_out, List.range_succ]
        · intro s' hs' hcnt' _ _
          rw [Option.some_inj] at hs'
          subst hs'
          simp [List.drop_one] at hcnt'
          exact absurd hcnt' hcnt

/-- Witness for the C10 theorem at the constant-shape input path. -/
theorem adapt_always_emits_shape_node_witness :
    w5Graph.failing_ops = [] ∧
    (∃ sn rest g2 nodes,
      _adapt_scan_sequence_input_or_output "input" "x:0" false w5Graph =
        (Except.ok nodes, g2) ∧
      nodes = sn :: rest ∧ sn.op_type = "Shape" ∧ sn.inputs = ["x:0"] ∧
      sn ∈ g2.nodes ∧ sn.output = [gen_out "Shape" w5Graph.counter 0]) ∧
    (∃ cn rn g2 nodes,
      _adapt_scan_sequence_input_or_output "input" "x:0" false w5Graph =
        (Except.ok nodes, g2) ∧
      nodes = [mk_node "Shape" "Shape" w5Graph.counter ["x:0"] [] 1, cn, rn] ∧
      cn.op_type = "Const" ∧ rn.op_type = "Reshape" ∧
      rn.inputs = ["x:0", gen_name ("input" ++ "_target_shape") (w5Graph.counter + 1) ++ ":0"] ∧
      gen_out "Shape" w5Graph.counter 0 ∉ rn.inputs) := by
  have h : _adapt_scan_sequence_input_or_output "input" "x:0" false w5Graph =
      (Except.ok [mk_node "Shape" "Shape" 0 ["x:0"] [] 1,
        ⟨gen_name ("input" ++ "_target_shape") 1, "Const", [],
          [gen_name ("input" ++ "_target_shape") 1 ++ ":0"],
          [("value", AttrValue.ints [1, 2, 3, 4])]⟩,
        mk_node ("input" ++ "/" ++ "Reshape") "Reshape" 2
          ["x:0", gen_name ("input" ++ "_target_shape") 1 ++ ":0"] [] 1],
      (_adapt_scan_sequence_input_or_output "input" "x:0" false w5Graph).2) := by
    conv_lhs => simp [_adapt_scan_sequence_input_or_output, adapt_in_mid, adapt_in_dyn,
      M.bind, M.pure, M.get, M.throw, make_node, make_name, make_const, out0,
      mk_node, gen_name, gen_out, record_shapes, record_dtypes,
      Graph.get_shape, Graph.get_dtype, List.range_succ, w5Graph]
    conv_rhs => simp [_adapt_scan_sequence_input_or_output, adapt_in_mid, adapt_in_dyn,
      M.bind, M.pure, M.get, M.throw, make_node, make_name, make_const, out0,
      mk_node, gen_name, gen_out, record_shapes, record_dtypes,
      Graph.get_shape, Graph.get_dtype, List.range_succ, w5Graph]
  obtain ⟨hA, hB⟩ := adapt_always_emits_shape_node "input" "x:0" false w5Graph _ _
    (by decide) h
  obtain ⟨sn, rest, hn1, hn2, hn3, hn4, hn5⟩ := hA
  obtain ⟨cn, rn, hm4, hm5, hm6, hm7, hm8⟩ :=
    hB [2, 3, 4] (by decide) (by decide) (by decide) (by decide)
  exact ⟨by decide,
    ⟨sn, rest, _, _, h, hn1, hn2, hn3, hn4, hn5⟩,
    ⟨cn, rn, _, _, h, hm4, hm5, hm6, hm7, hm8⟩⟩

end CustomRnn
